import Mathlib

/-!
# Connection stability check of the connection manager (`cm2_stability.c`)

A shallow embedding of `src/cm2/src/cm2_stability.c`.

* The process-wide `g_state` is an explicit value of type `cm2_state` that every
  function receives and returns.
* Everything the file calls but does not define (role query, OVSDB store, connectivity
  probe, topology lookup) is a field of `World`; one `World` describes what those calls
  answer during one timer tick.
* Every external call and every log call is recorded, in program order, in a trace of
  `Event`s, so that "is invoked", "is not invoked" and "is invoked once" are statements
  about the trace.
* The external functions answer as the `World` says and do not write `g_state`; the
  only writes to `g_state` are the assignments of the file itself (`ble_status` at
  line 81, `link.is_limp_state` at lines 124 and 128).
* The counters of the fetched record are C `int`s: they are integers, `+` is
  `int_add` (two's-complement wrap-around at 32 bits) and `%` is `int_mod`
  (truncation towards zero). Signed overflow is undefined in C; the theorems about the
  value of `counter + 1` therefore assume `int_incr_defined`, which excludes `INT_MAX`.
* Log calls are events `LOG severity format arguments`.
* Consecutive ticks are `run_ticks`: every tick fetches its record from the store as the
  updates of the tick before left it (`store_apply`) and starts from the global state the
  tick before returned.
-/

namespace CM2

/-! ## Constants -/

/-- Line 35: `#define CM2_WDT_INTERVAL 10`. -/
def CM2_WDT_INTERVAL : Nat := 10

/-- Line 38: `#define CM2_STABILITY_INTERVAL 10`. -/
def CM2_STABILITY_INTERVAL : Nat := 10

/-- Line 39: `#define CM2_STABILITY_THRESHOLD 5`. -/
def CM2_STABILITY_THRESHOLD : Int := 5

/-- Line 40: `#define CM2_STABILITY_INTERNET_THRESH 6`. -/
def CM2_STABILITY_INTERNET_THRESH : Int := 6

/-- Modelled from the spec: the flag `LINK_CHECK` of `target_connectivity_check_option_t`,
declared in `target.h`, which is not among the sources. The spec's CheckMask is a set over
Link, Router, Internet and NTP; the four members are four distinct bits. -/
def LINK_CHECK : Nat := 1

/-- Modelled from the spec: the flag `ROUTER_CHECK` of `target.h` (not among the sources),
the Router member of the spec's CheckMask. -/
def ROUTER_CHECK : Nat := 2

/-- Modelled from the spec: the flag `INTERNET_CHECK` of `target.h` (not among the sources),
the Internet member of the spec's CheckMask. -/
def INTERNET_CHECK : Nat := 4

/-- Modelled from the spec: the flag `NTP_CHECK` of `target.h` (not among the sources),
the NTP member of the spec's CheckMask. -/
def NTP_CHECK : Nat := 8

/-- Modelled from the spec: the macro `BR_WAN_NAME`, defined outside the sources; it names
the WAN bridge whose DHCP lease the recovery action refreshes (the log line at line 143
calls it br-wan). -/
def BR_WAN_NAME : String := "br-wan"

/-! ## C `int` arithmetic -/

/-- Smallest value of a 32-bit C `int`. -/
def INT_MIN : Int := -2147483648

/-- Largest value of a 32-bit C `int`. -/
def INT_MAX : Int := 2147483647

/-- Reduction of an integer to the 32-bit two's-complement range. -/
def int_wrap (x : Int) : Int := (x + 2147483648) % 4294967296 - 2147483648

/-- C `a + b` on `int`. Signed overflow is undefined in C; it is modelled as the
two's-complement wrap-around that the usual targets produce. -/
def int_add (a b : Int) : Int := int_wrap (a + b)

/-- C `a % b` on `int` (C99: the quotient truncates towards zero, so the remainder has the
sign of `a`). -/
def int_mod (a b : Int) : Int := Int.tmod a b

/-- Comparison loop of `strcmp` on the characters of the two strings. -/
def strcmp_chars : List Char → List Char → Int
  | [], [] => 0
  | [], _ :: _ => -1
  | _ :: _, [] => 1
  | a :: as, b :: bs =>
    if a = b then strcmp_chars as bs else if a.toNat < b.toNat then -1 else 1

/-- C `strcmp`: zero exactly when the two strings are equal, otherwise the sign of the
first difference. -/
def strcmp (a b : String) : Int := strcmp_chars a.data b.data

/-! ## Data -/

/-- The enum `cm2_main_link_type` returned by `cm2_util_get_link_type`. -/
inductive cm2_main_link_type where
  | CM2_LINK_NOT_DEFINED
  | CM2_LINK_ETH_BRIDGE
  | CM2_LINK_ETH_ROUTER
  | CM2_LINK_GRE
  deriving DecidableEq, Repr

/-- The fields of `g_state.link` that the file reads or writes. -/
structure cm2_main_link where
  if_name : String
  if_type : String
  is_used : Bool
  is_limp_state : Bool
  deriving DecidableEq, Repr

/-- The fields of `g_state` that the file reads or writes (timers apart). -/
structure cm2_state where
  link : cm2_main_link
  connected : Bool
  run_stability : Bool
  ble_status : Nat
  deriving DecidableEq, Repr

/-- The fields of `struct schema_Connection_Manager_Uplink` that the file reads: the three
consecutive-failure counters (C `int`s) of the record fetched for the active interface. -/
structure schema_Connection_Manager_Uplink where
  unreachable_link_counter : Int
  unreachable_router_counter : Int
  unreachable_internet_counter : Int
  deriving DecidableEq, Repr

/-- The out-parameter `target_connectivity_check_t` filled by the probe. -/
structure target_connectivity_check_t where
  link_state : Bool
  router_state : Bool
  internet_state : Bool
  ntp_state : Bool
  deriving DecidableEq, Repr

/-- Severity of a log call: `LOGW`, `LOGN`, `LOGI`, `LOGD`. -/
inductive log_severity where
  | W
  | N
  | I
  | D
  deriving DecidableEq, Repr

/-- One argument of a log call. -/
inductive log_arg where
  | d (v : Int)
  | x (v : Nat)
  | s (v : String)
  deriving DecidableEq, Repr

/-- What the tick does to the outside: every external call and every log call, with its
arguments. -/
inductive Event where
  | LOG (sev : log_severity) (fmt : String) (args : List log_arg)
  | cm2_is_extender
  | cm2_ovsdb_connection_update_ble_phy_link
  | cm2_ovsdb_connection_get_connection_by_ifname (if_name : String)
  | target_device_connectivity_check (if_name : String) (opts : Nat)
  | cm2_ovsdb_connection_update_unreachable_link_counter (if_name : String) (counter : Int)
  | cm2_ovsdb_connection_update_unreachable_router_counter (if_name : String) (counter : Int)
  | cm2_ovsdb_connection_update_unreachable_internet_counter (if_name : String) (counter : Int)
  | cm2_ovsdb_connection_update_ntp_state (if_name : String) (ntp_state : Bool)
  | cm2_ovsdb_is_port_name (port_name : String)
  | target_device_restart_managers
  | cm2_ovsdb_refresh_dhcp (if_name : String)
  | target_device_wdt_ping
  deriving DecidableEq, Repr

/-- The answers of the external collaborators during one tick.

* `cm2_is_extender`: the device role.
* `cm2_ovsdb_connection_get_connection_by_ifname`: `none` when the call returns `false`
  (interface not in the table), `some con` when it returns `true` and fills `con`.
* `target_device_connectivity_check`: the returned flag and the filled `cstate`.
* `cm2_ovsdb_is_port_name`: the topology lookup.
* the four `update` functions: the success flag each store update returns. -/
structure World where
  cm2_is_extender : Bool
  cm2_ovsdb_connection_get_connection_by_ifname :
    String → Option schema_Connection_Manager_Uplink
  target_device_connectivity_check : String → Nat → Bool × target_connectivity_check_t
  cm2_ovsdb_is_port_name : String → Bool
  cm2_ovsdb_connection_update_unreachable_link_counter : String → Int → Bool
  cm2_ovsdb_connection_update_unreachable_router_counter : String → Int → Bool
  cm2_ovsdb_connection_update_unreachable_internet_counter : String → Int → Bool
  cm2_ovsdb_connection_update_ntp_state : String → Bool → Bool

/-! ## The functions of `cm2_stability.c` -/

/-- Lines 42-61, `cm2_util_get_link_type`: the link type and the trace of the lookup. -/
def cm2_util_get_link_type (w : World) (g : cm2_state) :
    cm2_main_link_type × List Event :=
  let type := cm2_main_link_type.CM2_LINK_NOT_DEFINED
  if !g.link.is_used then
    (type, [])
  else
    let r1 : cm2_main_link_type × List Event :=
      if strcmp g.link.if_type "eth" = 0 then
        (if w.cm2_ovsdb_is_port_name "patch-w2h" then
            cm2_main_link_type.CM2_LINK_ETH_BRIDGE
          else
            cm2_main_link_type.CM2_LINK_ETH_ROUTER,
         [Event.cm2_ovsdb_is_port_name "patch-w2h"])
      else
        (type, [])
    let type2 :=
      if strcmp g.link.if_type "gre" = 0 then
        cm2_main_link_type.CM2_LINK_GRE
      else
        r1.1
    (type2, r1.2)

/-- Name of the enclosing function, the value of `__func__` in the log calls. -/
def func_name : String := "cm2_connection_stability_check"

/-- Lines 99-108, the body of `if (opts & LINK_CHECK)`. -/
def link_check_body (w : World) (if_name : String)
    (con : schema_Connection_Manager_Uplink) (cstate : target_connectivity_check_t) :
    List Event :=
  let counter : Int :=
    if !cstate.link_state then int_add con.unreachable_link_counter 1 else 0
  let t1 : List Event :=
    if !cstate.link_state then
      [Event.LOG .W "Detected broken link. Counter = %d" [.d counter]]
    else []
  let ret := w.cm2_ovsdb_connection_update_unreachable_link_counter if_name counter
  t1 ++ [Event.cm2_ovsdb_connection_update_unreachable_link_counter if_name counter]
    ++ (if !ret then
          [Event.LOG .W "%s Failed update link counter in ovsdb table" [.s func_name]]
        else [])

/-- Lines 121-129: the limp-state update for a classified link, with its log line. -/
def limp_state_update (link_type : cm2_main_link_type) (g : cm2_state) :
    cm2_state × List Event :=
  if link_type = cm2_main_link_type.CM2_LINK_ETH_ROUTER then
    ({ g with link := { g.link with is_limp_state := true } },
     if !g.link.is_limp_state then
       [Event.LOG .I "Device operates in Router mode" []]
     else [])
  else if link_type = cm2_main_link_type.CM2_LINK_ETH_BRIDGE then
    ({ g with link := { g.link with is_limp_state := false } },
     if g.link.is_limp_state then
       [Event.LOG .I "Device operates in Bridge mode" []]
     else [])
  else
    (g, [])

/-- Lines 109-136, the body of `if (opts & ROUTER_CHECK)`. -/
def router_check_body (w : World) (g : cm2_state) (if_name : String)
    (con : schema_Connection_Manager_Uplink) (cstate : target_connectivity_check_t) :
    cm2_state × List Event :=
  let counter : Int :=
    if !cstate.router_state then int_add con.unreachable_router_counter 1 else 0
  let t1 : List Event :=
    if !cstate.router_state then
      [Event.LOG .W "Detected broken Router. Counter = %d" [.d counter]]
    else []
  let ret := w.cm2_ovsdb_connection_update_unreachable_router_counter if_name counter
  let t2 : List Event :=
    [Event.cm2_ovsdb_connection_update_unreachable_router_counter if_name counter]
      ++ (if !ret then
            [Event.LOG .W "%s Failed update router counter in ovsdb table" [.s func_name]]
          else [])
  let lt := cm2_util_get_link_type w g
  let link_type := lt.1
  let r := limp_state_update link_type g
  let g1 := r.1
  let t3 : List Event :=
    if !g1.link.is_limp_state ∧
        int_add con.unreachable_router_counter 1 > CM2_STABILITY_THRESHOLD then
      [Event.LOG .W "Restart managers due to exceeding the threshold router failures" [],
       Event.target_device_restart_managers]
    else []
  (g1, t1 ++ t2 ++ lt.2 ++ r.2 ++ t3)

/-- Lines 137-150, the body of `if (opts & INTERNET_CHECK)`. -/
def internet_check_body (w : World) (if_name : String)
    (con : schema_Connection_Manager_Uplink) (cstate : target_connectivity_check_t) :
    List Event :=
  let counter : Int :=
    if !cstate.internet_state then int_add con.unreachable_internet_counter 1 else 0
  let t1 : List Event :=
    if !cstate.internet_state then
      [Event.LOG .W "Detected broken Internet. Counter = %d" [.d counter]]
        ++ (if int_mod counter CM2_STABILITY_INTERNET_THRESH = 0 then
              [Event.LOG .N "Refresh br-wan interface due to Internet issue" [],
               Event.cm2_ovsdb_refresh_dhcp BR_WAN_NAME]
            else [])
    else []
  let ret := w.cm2_ovsdb_connection_update_unreachable_internet_counter if_name counter
  t1 ++ [Event.cm2_ovsdb_connection_update_unreachable_internet_counter if_name counter]
    ++ (if !ret then
          [Event.LOG .W "%s Failed update internet counter in ovsdb table" [.s func_name]]
        else [])

/-- Lines 151-156, the body of `if (opts & NTP_CHECK)`. -/
def ntp_check_body (w : World) (if_name : String) (cstate : target_connectivity_check_t) :
    List Event :=
  let ret := w.cm2_ovsdb_connection_update_ntp_state if_name cstate.ntp_state
  [Event.cm2_ovsdb_connection_update_ntp_state if_name cstate.ntp_state]
    ++ (if !ret then
          [Event.LOG .W "%s Failed update ntp state in ovsdb table" [.s func_name]]
        else [])

/-- Lines 92-94: the check mask requested from the probe. -/
def check_opts (g : cm2_state) : Nat :=
  let opts := LINK_CHECK ||| ROUTER_CHECK ||| NTP_CHECK
  if !g.connected then opts ||| INTERNET_CHECK else opts

/-- Lines 63-158, `cm2_connection_stability_check`: the new `g_state` and the trace of
the tick. -/
def cm2_connection_stability_check (w : World) (g : cm2_state) :
    cm2_state × List Event :=
  if !w.cm2_is_extender then
    (g, [Event.cm2_is_extender])
  else
    let if_name := g.link.if_name
    if !g.link.is_used then
      ({ g with ble_status := 0 },
       [Event.cm2_is_extender,
        Event.LOG .N "Waiting for new active link" [],
        Event.cm2_ovsdb_connection_update_ble_phy_link])
    else
      match w.cm2_ovsdb_connection_get_connection_by_ifname if_name with
      | none =>
        (g, [Event.cm2_is_extender,
             Event.cm2_ovsdb_connection_get_connection_by_ifname if_name,
             Event.LOG .W "%s interface does not exist" [.s func_name]])
      | some con =>
        let opts := check_opts g
        let pr := w.target_device_connectivity_check if_name opts
        let ret := pr.1
        let cstate := pr.2
        let t0 : List Event :=
          [Event.cm2_is_extender,
           Event.cm2_ovsdb_connection_get_connection_by_ifname if_name,
           Event.target_device_connectivity_check if_name opts,
           Event.LOG .N "Connection status %d, main link: %s opts: = %x"
             [.d (if ret then 1 else 0), .s if_name, .x opts]]
        let t1 : List Event :=
          if opts &&& LINK_CHECK ≠ 0 then link_check_body w if_name con cstate else []
        let r2 : cm2_state × List Event :=
          if opts &&& ROUTER_CHECK ≠ 0 then router_check_body w g if_name con cstate
          else (g, [])
        let t3 : List Event :=
          if opts &&& INTERNET_CHECK ≠ 0 then internet_check_body w if_name con cstate
          else []
        let t4 : List Event :=
          if opts &&& NTP_CHECK ≠ 0 then ntp_check_body w if_name cstate else []
        (r2.1, t0 ++ t1 ++ r2.2 ++ t3 ++ t4)

/-- Lines 160-168, `cm2_stability_cb`: the timer callback of the stability check. -/
def cm2_stability_cb (w : World) (g : cm2_state) : cm2_state × List Event :=
  if g.run_stability then cm2_connection_stability_check w g else (g, [])

/-- Lines 184-191, `cm2_wdt_cb`: the timer callback of the watchdog. -/
def cm2_wdt_cb (g : cm2_state) : cm2_state × List Event :=
  (g, [Event.target_device_wdt_ping])

/-! ## Observations on a trace -/

/-- The link-counter store updates of a trace, in order: interface name and value written. -/
def link_counter_updates (tr : List Event) : List (String × Int) :=
  tr.filterMap fun e =>
    match e with
    | Event.cm2_ovsdb_connection_update_unreachable_link_counter n c => some (n, c)
    | _ => none

/-- The router-counter store updates of a trace, in order. -/
def router_counter_updates (tr : List Event) : List (String × Int) :=
  tr.filterMap fun e =>
    match e with
    | Event.cm2_ovsdb_connection_update_unreachable_router_counter n c => some (n, c)
    | _ => none

/-- The Internet-counter store updates of a trace, in order. -/
def internet_counter_updates (tr : List Event) : List (String × Int) :=
  tr.filterMap fun e =>
    match e with
    | Event.cm2_ovsdb_connection_update_unreachable_internet_counter n c => some (n, c)
    | _ => none

/-- The NTP-state store updates of a trace, in order: interface name and state written. -/
def ntp_state_updates (tr : List Event) : List (String × Bool) :=
  tr.filterMap fun e =>
    match e with
    | Event.cm2_ovsdb_connection_update_ntp_state n s => some (n, s)
    | _ => none

/-- The DHCP refreshes of a trace, in order: the interface name passed. -/
def dhcp_refreshes (tr : List Event) : List String :=
  tr.filterMap fun e =>
    match e with
    | Event.cm2_ovsdb_refresh_dhcp n => some n
    | _ => none

/-- The probe calls of a trace, in order: interface name and check mask passed. -/
def probe_calls (tr : List Event) : List (String × Nat) :=
  tr.filterMap fun e =>
    match e with
    | Event.target_device_connectivity_check n o => some (n, o)
    | _ => none

/-- The record fetches of a trace, in order: the interface name looked up. -/
def record_fetches (tr : List Event) : List String :=
  tr.filterMap fun e =>
    match e with
    | Event.cm2_ovsdb_connection_get_connection_by_ifname n => some n
    | _ => none

/-- Number of `target_device_restart_managers` calls in a trace. -/
def restart_count (tr : List Event) : Nat :=
  tr.count Event.target_device_restart_managers

/-- Number of `cm2_ovsdb_connection_update_ble_phy_link` calls in a trace. -/
def ble_update_count (tr : List Event) : Nat :=
  tr.count Event.cm2_ovsdb_connection_update_ble_phy_link

/-- The mode log lines of a trace, in order: the format strings of its `LOGI` calls (the
only `LOGI` calls of the file are "Device operates in Router mode" and "Device operates
in Bridge mode"). -/
def mode_logs (tr : List Event) : List String :=
  tr.filterMap fun e =>
    match e with
    | Event.LOG log_severity.I fmt _ => some fmt
    | _ => none

/-- The probe answer of the tick: what `target_device_connectivity_check` returns for the
active interface and the mask of this tick. -/
def probe_answer (w : World) (g : cm2_state) : Bool × target_connectivity_check_t :=
  w.target_device_connectivity_check g.link.if_name (check_opts g)

/-- The C expression `c + 1` is defined for the `int` value `c`: `c` is in the range of
`int` and is not `INT_MAX`. -/
def int_incr_defined (c : Int) : Prop := INT_MIN ≤ c ∧ c < INT_MAX

instance (c : Int) : Decidable (int_incr_defined c) := by
  unfold int_incr_defined; infer_instance

/-! ## Sample inputs -/

/-- A world: extender role, every interface has the record `con`, the probe answers
`cstate` with flag `ret`, the port lookup answers `port`, every store update answers `ok`. -/
def sample_world (con : schema_Connection_Manager_Uplink) (ret : Bool)
    (cstate : target_connectivity_check_t) (port ok : Bool) : World where
  cm2_is_extender := true
  cm2_ovsdb_connection_get_connection_by_ifname := fun _ => some con
  target_device_connectivity_check := fun _ _ => (ret, cstate)
  cm2_ovsdb_is_port_name := fun _ => port
  cm2_ovsdb_connection_update_unreachable_link_counter := fun _ _ => ok
  cm2_ovsdb_connection_update_unreachable_router_counter := fun _ _ => ok
  cm2_ovsdb_connection_update_unreachable_internet_counter := fun _ _ => ok
  cm2_ovsdb_connection_update_ntp_state := fun _ _ => ok

/-- A global state with an active Ethernet uplink `eth0`. -/
def sample_state (limp connected : Bool) : cm2_state where
  link := { if_name := "eth0", if_type := "eth", is_used := true, is_limp_state := limp }
  connected := connected
  run_stability := true
  ble_status := 7

/-- A record with stored counters 3 (link), 5 (router) and 5 (Internet). -/
def con_a : schema_Connection_Manager_Uplink := ⟨3, 5, 5⟩

/-- A world: extender role, record `con_a`, a probe that returns not-ok and reports the
link and the Internet as failed, the router as passed and NTP in sync, the port
`patch-w2h` present, every store update successful. -/
def world_a : World :=
  sample_world con_a false ⟨false, true, false, true⟩ true true

/-- Active Ethernet uplink `eth0`, limp state set, not connected. -/
def state_limp : cm2_state := sample_state true false

/-- Active Ethernet uplink `eth0`, limp state set, connected. -/
def state_connected : cm2_state := sample_state true true

/-- The trace of the tick up to and including the probe call and its log line. -/
def probe_preamble (w : World) (g : cm2_state) : List Event :=
  [Event.cm2_is_extender,
   Event.cm2_ovsdb_connection_get_connection_by_ifname g.link.if_name,
   Event.target_device_connectivity_check g.link.if_name (check_opts g),
   Event.LOG .N "Connection status %d, main link: %s opts: = %x"
     [.d (if (probe_answer w g).1 then 1 else 0), .s g.link.if_name, .x (check_opts g)]]

/-- The non-log events of a trace, in order: the external calls of the tick. -/
def external_calls (tr : List Event) : List Event :=
  tr.filter fun e =>
    match e with
    | Event.LOG _ _ _ => false
    | _ => true

/-- The world `w` with the success flags returned by the four store updates replaced. -/
def with_update_results (w : World) (fl fr fi : String → Int → Bool)
    (fn : String → Bool → Bool) : World :=
  { w with
    cm2_ovsdb_connection_update_unreachable_link_counter := fl
    cm2_ovsdb_connection_update_unreachable_router_counter := fr
    cm2_ovsdb_connection_update_unreachable_internet_counter := fi
    cm2_ovsdb_connection_update_ntp_state := fn }

/-- A world in which the record of every interface is missing from the table. -/
def world_no_record : World :=
  { world_a with cm2_ovsdb_connection_get_connection_by_ifname := fun _ => none }

/-- No active uplink: `is_used` false, limp state set, liveness indicator 7. -/
def state_unused : cm2_state :=
  { link := { if_name := "", if_type := "", is_used := false, is_limp_state := true }
    connected := false
    run_stability := true
    ble_status := 7 }

/-- The world `w` with the flag returned by the probe replaced by `ret`; the `cstate` the
probe fills in is kept. -/
def with_probe_ret (w : World) (ret : Bool) : World :=
  { w with
    target_device_connectivity_check := fun n o =>
      (ret, (w.target_device_connectivity_check n o).2) }

/-- The world `w` with the `cstate` filled in by the probe transformed by `f`; the flag the
probe returns is kept. -/
def with_probe_cstate (w : World)
    (f : target_connectivity_check_t → target_connectivity_check_t) : World :=
  { w with
    target_device_connectivity_check := fun n o =>
      ((w.target_device_connectivity_check n o).1,
       f (w.target_device_connectivity_check n o).2) }

/-- Number of `target_device_wdt_ping` calls in a trace. -/
def wdt_ping_count (tr : List Event) : Nat :=
  tr.count Event.target_device_wdt_ping

/-- The callbacks the file registers with its timers. -/
inductive timer_callback where
  | cm2_stability_cb
  | cm2_wdt_cb
  deriving DecidableEq, Repr

/-- What `ev_timer_init` stores in a timer: the callback, the delay before the first call
and the period of the repetition. -/
structure ev_timer where
  cb : timer_callback
  after : Nat
  period : Nat
  deriving DecidableEq, Repr

/-- Lines 170-176, `cm2_stability_init`: the timer it initialises and starts, and its log
line. -/
def cm2_stability_init : ev_timer × List Event :=
  ({ cb := timer_callback.cm2_stability_cb
     after := CM2_STABILITY_INTERVAL
     period := CM2_STABILITY_INTERVAL },
   [Event.LOG .D "Initializing stability connection check" []])

/-- Lines 193-199, `cm2_wdt_init`: the timer it initialises and starts, and its log
line. -/
def cm2_wdt_init : ev_timer × List Event :=
  ({ cb := timer_callback.cm2_wdt_cb
     after := CM2_WDT_INTERVAL
     period := CM2_WDT_INTERVAL },
   [Event.LOG .D "Initializing WDT connection" []])

/-- A record with stored counters 3 (link), 4 (router) and 5 (Internet). -/
def con_b : schema_Connection_Manager_Uplink := ⟨3, 4, 5⟩

/-- A world like `world_a`, with the record `con_b` and a probe that reports the router as
failed too. -/
def world_b : World :=
  sample_world con_b false ⟨false, false, false, true⟩ true true

/-- Active Ethernet uplink `eth0`, limp state clear, not connected. -/
def state_clear : cm2_state := sample_state false false

/-- A device that is not in the extender role, otherwise as `world_a`. -/
def world_not_extender : World :=
  { world_a with cm2_is_extender := false }

/-- A world like `world_a` in which the port `patch-w2h` is absent, so that an Ethernet
uplink is classified as router. -/
def world_router : World :=
  sample_world con_a false ⟨false, true, false, true⟩ false true

/-! ## Consecutive ticks over a store -/

/-- Modelled from the spec: the effect of one store update on the record of interface `n`.
The update functions `cm2_ovsdb_connection_update_unreachable_*_counter` are not among the
sources; the spec describes the Link Record Store as keyed by interface name with
field-level update, so an update for `n` replaces that one counter of the record and
every other event leaves the record as it is. -/
def record_apply (n : String) (r : schema_Connection_Manager_Uplink) (e : Event) :
    schema_Connection_Manager_Uplink :=
  match e with
  | Event.cm2_ovsdb_connection_update_unreachable_link_counter m c =>
    if m = n then { r with unreachable_link_counter := c } else r
  | Event.cm2_ovsdb_connection_update_unreachable_router_counter m c =>
    if m = n then { r with unreachable_router_counter := c } else r
  | Event.cm2_ovsdb_connection_update_unreachable_internet_counter m c =>
    if m = n then { r with unreachable_internet_counter := c } else r
  | _ => r

/-- Modelled from the spec: the Link Record Store (the OVSDB table behind
`cm2_ovsdb_connection_get_connection_by_ifname`, not among the sources): the record of
each interface name, if there is one. -/
abbrev link_store : Type := String → Option schema_Connection_Manager_Uplink

/-- The store after the events of a trace, every update having succeeded. -/
def store_apply (s : link_store) (tr : List Event) : link_store :=
  fun n => (s n).map fun r => tr.foldl (record_apply n) r

/-- What one tick is given apart from the store: the answers of the probe and of the
topology lookup. -/
structure tick_env where
  target_device_connectivity_check : String → Nat → Bool × target_connectivity_check_t
  cm2_ovsdb_is_port_name : String → Bool

/-- The world of a tick on an extender whose record fetch reads the store `s` and whose
store updates all succeed. -/
def store_world (s : link_store) (e : tick_env) : World where
  cm2_is_extender := true
  cm2_ovsdb_connection_get_connection_by_ifname := s
  target_device_connectivity_check := e.target_device_connectivity_check
  cm2_ovsdb_is_port_name := e.cm2_ovsdb_is_port_name
  cm2_ovsdb_connection_update_unreachable_link_counter := fun _ _ => true
  cm2_ovsdb_connection_update_unreachable_router_counter := fun _ _ => true
  cm2_ovsdb_connection_update_unreachable_internet_counter := fun _ _ => true
  cm2_ovsdb_connection_update_ntp_state := fun _ _ => true

/-- Consecutive ticks of `cm2_connection_stability_check`, one per element of the list:
each tick fetches its record from the store left by the tick before and starts from the
global state left by the tick before. The result is the final store, the final global
state and, tick by tick, the state after the tick and its trace. -/
def run_ticks (s : link_store) (g : cm2_state) :
    List tick_env → link_store × cm2_state × List (cm2_state × List Event)
  | [] => (s, g, [])
  | e :: es =>
    let r := cm2_connection_stability_check (store_world s e) g
    let rest := run_ticks (store_apply s r.2) r.1 es
    (rest.1, rest.2.1, r :: rest.2.2)

/-- Total number of DHCP refreshes over the ticks of a run. -/
def total_dhcp_refreshes (ticks : List (cm2_state × List Event)) : Nat :=
  (ticks.map fun r => (dhcp_refreshes r.2).length).sum

/-- Total number of `target_device_restart_managers` calls over the ticks of a run. -/
def total_restarts (ticks : List (cm2_state × List Event)) : Nat :=
  (ticks.map fun r => restart_count r.2).sum

/-- A store that holds, for every interface, a record whose three counters are 0. -/
def store_zero : link_store := fun _ => some ⟨0, 0, 0⟩

/-- A tick environment: the probe returns not-ok and reports the link as passed, the
router and the Internet as failed and NTP in sync; the port `patch-w2h` is present. -/
def env_fail : tick_env where
  target_device_connectivity_check := fun _ _ => (false, ⟨true, false, false, true⟩)
  cm2_ovsdb_is_port_name := fun _ => true

/-- A tick environment in which the probe reports every check as passed. -/
def env_pass : tick_env where
  target_device_connectivity_check := fun _ _ => (true, ⟨true, true, true, true⟩)
  cm2_ovsdb_is_port_name := fun _ => true

/-! ## Auxiliary lemmas -/

/-- The comparison loop returns zero exactly on equal character lists. -/
theorem strcmp_chars_eq_zero_iff (a b : List Char) : strcmp_chars a b = 0 ↔ a = b := by
  induction a generalizing b with
  | nil => cases b <;> simp [strcmp_chars]
  | cons x xs ih =>
    cases b with
    | nil => simp [strcmp_chars]
    | cons y ys =>
      by_cases hxy : x = y
      · simp [strcmp_chars, hxy, ih]
      · by_cases hlt : x.toNat < y.toNat <;> simp [strcmp_chars, hxy, hlt]

/-- The test `!strcmp(a, b)` of the source holds exactly when the strings are equal. -/
theorem strcmp_eq_zero_iff (a b : String) : strcmp a b = 0 ↔ a = b := by
  unfold strcmp
  rw [strcmp_chars_eq_zero_iff]
  constructor
  · intro h; exact String.ext h
  · intro h; rw [h]

/-- Where the increment is defined, C `c + 1` is the mathematical `c + 1`. -/
theorem int_add_one_of_defined (c : Int) (h : int_incr_defined c) : int_add c 1 = c + 1 := by
  unfold int_incr_defined INT_MIN INT_MAX at h
  unfold int_add int_wrap
  omega

/-- The mask of every tick contains `LINK_CHECK`. -/
theorem check_opts_link (g : cm2_state) : check_opts g &&& LINK_CHECK ≠ 0 := by
  unfold check_opts; cases g.connected <;> decide

/-- The mask of every tick contains `ROUTER_CHECK`. -/
theorem check_opts_router (g : cm2_state) : check_opts g &&& ROUTER_CHECK ≠ 0 := by
  unfold check_opts; cases g.connected <;> decide

/-- The mask of every tick contains `NTP_CHECK`. -/
theorem check_opts_ntp (g : cm2_state) : check_opts g &&& NTP_CHECK ≠ 0 := by
  unfold check_opts; cases g.connected <;> decide

/-- The mask contains `INTERNET_CHECK` exactly when `connected` is false. -/
theorem check_opts_internet (g : cm2_state) :
    check_opts g &&& INTERNET_CHECK ≠ 0 ↔ g.connected = false := by
  unfold check_opts; cases g.connected <;> decide

/-- A tick that reaches the probe: its state and its trace, block by block. -/
theorem stability_check_at_probe (w : World) (g : cm2_state)
    (con : schema_Connection_Manager_Uplink)
    (hext : w.cm2_is_extender = true) (hused : g.link.is_used = true)
    (hcon : w.cm2_ovsdb_connection_get_connection_by_ifname g.link.if_name = some con) :
    cm2_connection_stability_check w g =
      ((router_check_body w g g.link.if_name con (probe_answer w g).2).1,
       probe_preamble w g
        ++ link_check_body w g.link.if_name con (probe_answer w g).2
        ++ (router_check_body w g g.link.if_name con (probe_answer w g).2).2
        ++ (if g.connected = false then
              internet_check_body w g.link.if_name con (probe_answer w g).2
            else [])
        ++ ntp_check_body w g.link.if_name (probe_answer w g).2) := by
  have h1 := check_opts_link g
  have h2 := check_opts_router g
  have h3 := check_opts_ntp g
  have h4 := check_opts_internet g
  unfold cm2_connection_stability_check
  simp only [hext, hused, hcon, Bool.not_true, Bool.false_eq_true, if_false]
  simp only [h1, h2, h3, h4, ne_eq, not_false_eq_true, if_true, probe_preamble, probe_answer]


/-- A projection of a conditional trace is the conditional of the projections. -/
theorem filterMap_ite {α β : Type} (f : α → Option β) (c : Prop) [Decidable c]
    (l1 l2 : List α) :
    List.filterMap f (if c then l1 else l2)
      = if c then List.filterMap f l1 else List.filterMap f l2 := by
  split <;> rfl

/-- Counting in a conditional trace. -/
theorem count_ite {α : Type} [BEq α] (a : α) (c : Prop) [Decidable c] (l1 l2 : List α) :
    List.count a (if c then l1 else l2)
      = if c then List.count a l1 else List.count a l2 := by
  split <;> rfl

/-- The state after a tick that reaches the probe is the state after the limp-state
update for the classified link type. -/
theorem state_at_probe (w : World) (g : cm2_state)
    (con : schema_Connection_Manager_Uplink)
    (hext : w.cm2_is_extender = true) (hused : g.link.is_used = true)
    (hcon : w.cm2_ovsdb_connection_get_connection_by_ifname g.link.if_name = some con) :
    (cm2_connection_stability_check w g).1
      = (limp_state_update (cm2_util_get_link_type w g).1 g).1 := by
  rw [stability_check_at_probe w g con hext hused hcon]
  simp [router_check_body]

/-- The restarts of a tick that reaches the probe, in C arithmetic. -/
theorem restart_count_at_probe (w : World) (g : cm2_state)
    (con : schema_Connection_Manager_Uplink)
    (hext : w.cm2_is_extender = true) (hused : g.link.is_used = true)
    (hcon : w.cm2_ovsdb_connection_get_connection_by_ifname g.link.if_name = some con) :
    restart_count (cm2_connection_stability_check w g).2
      = if (cm2_connection_stability_check w g).1.link.is_limp_state = false ∧
            int_add con.unreachable_router_counter 1 > CM2_STABILITY_THRESHOLD
        then 1 else 0 := by
  rw [state_at_probe w g con hext hused hcon,
    stability_check_at_probe w g con hext hused hcon]
  simp [restart_count, probe_preamble, link_check_body, router_check_body,
      internet_check_body, ntp_check_body, cm2_util_get_link_type, limp_state_update,
      count_ite, apply_ite Prod.snd, apply_ite Prod.fst, List.count_cons]

/-- The DHCP refreshes of a tick that reaches the probe, in C arithmetic. -/
theorem dhcp_refreshes_at_probe (w : World) (g : cm2_state)
    (con : schema_Connection_Manager_Uplink)
    (hext : w.cm2_is_extender = true) (hused : g.link.is_used = true)
    (hcon : w.cm2_ovsdb_connection_get_connection_by_ifname g.link.if_name = some con) :
    dhcp_refreshes (cm2_connection_stability_check w g).2
      = if g.connected = false ∧ (probe_answer w g).2.internet_state = false ∧
            int_mod (int_add con.unreachable_internet_counter 1)
              CM2_STABILITY_INTERNET_THRESH = 0
        then [BR_WAN_NAME] else [] := by
  rw [stability_check_at_probe w g con hext hused hcon]
  simp [dhcp_refreshes, probe_preamble, link_check_body, router_check_body,
      internet_check_body, ntp_check_body, cm2_util_get_link_type, limp_state_update,
      filterMap_ite, apply_ite Prod.snd, apply_ite Prod.fst]
  cases g.connected <;> cases (probe_answer w g).2.internet_state <;> simp

/-- The Internet-counter updates of a tick that reaches the probe, in C arithmetic. -/
theorem internet_updates_at_probe (w : World) (g : cm2_state)
    (con : schema_Connection_Manager_Uplink)
    (hext : w.cm2_is_extender = true) (hused : g.link.is_used = true)
    (hcon : w.cm2_ovsdb_connection_get_connection_by_ifname g.link.if_name = some con) :
    internet_counter_updates (cm2_connection_stability_check w g).2
      = if g.connected = false then
          [(g.link.if_name,
            if (probe_answer w g).2.internet_state = true then 0
            else int_add con.unreachable_internet_counter 1)]
        else [] := by
  rw [stability_check_at_probe w g con hext hused hcon]
  simp [internet_counter_updates, probe_preamble, link_check_body, router_check_body,
      internet_check_body, ntp_check_body, cm2_util_get_link_type, limp_state_update,
      filterMap_ite, apply_ite Prod.snd, apply_ite Prod.fst]
  cases g.connected <;> cases (probe_answer w g).2.internet_state <;> simp

/-- For a stored counter between 0 and `INT_MAX`, the test `counter % 6 == 0` on the
incremented counter holds exactly when that value is positive and divisible by 6. -/
theorem int_mod_incr_eq_zero_iff (c : Int) (h0 : 0 ≤ c) (hmax : c ≤ INT_MAX) :
    int_mod (int_add c 1) CM2_STABILITY_INTERNET_THRESH = 0
      ↔ 0 < int_add c 1 ∧ (6 : Int) ∣ int_add c 1 := by
  unfold INT_MAX at hmax
  by_cases hc : c = 2147483647
  · subst hc
    decide
  · have hv : int_add c 1 = c + 1 := by
      unfold int_add int_wrap; omega
    rw [hv]
    unfold int_mod CM2_STABILITY_INTERNET_THRESH
    rw [← Int.dvd_iff_tmod_eq_zero]
    constructor
    · intro h; exact ⟨by omega, h⟩
    · intro h; exact h.2

/-- The mode log lines of a tick that reaches the probe are those of the limp-state
update. -/
theorem mode_logs_at_probe (w : World) (g : cm2_state)
    (con : schema_Connection_Manager_Uplink)
    (hext : w.cm2_is_extender = true) (hused : g.link.is_used = true)
    (hcon : w.cm2_ovsdb_connection_get_connection_by_ifname g.link.if_name = some con) :
    mode_logs (cm2_connection_stability_check w g).2
      = mode_logs (limp_state_update (cm2_util_get_link_type w g).1 g).2 := by
  rw [stability_check_at_probe w g con hext hused hcon]
  simp [mode_logs, probe_preamble, link_check_body, router_check_body,
      internet_check_body, ntp_check_body, cm2_util_get_link_type,
      filterMap_ite, apply_ite Prod.snd, apply_ite Prod.fst]

/-- The limp-state update changes no field other than `link.is_limp_state`. -/
theorem limp_state_update_frame (lt : cm2_main_link_type) (g : cm2_state) :
    (limp_state_update lt g).1.link.is_used = g.link.is_used ∧
    (limp_state_update lt g).1.link.if_name = g.link.if_name ∧
    (limp_state_update lt g).1.link.if_type = g.link.if_type ∧
    (limp_state_update lt g).1.connected = g.connected ∧
    (limp_state_update lt g).1.run_stability = g.run_stability ∧
    (limp_state_update lt g).1.ble_status = g.ble_status := by
  cases lt <;> simp [limp_state_update]

/-- The flag and the log line produced by the limp-state update. -/
theorem limp_state_update_spec (lt : cm2_main_link_type) (g : cm2_state) :
    (limp_state_update lt g).1.link.is_limp_state
      = (if lt = cm2_main_link_type.CM2_LINK_ETH_ROUTER then true
         else if lt = cm2_main_link_type.CM2_LINK_ETH_BRIDGE then false
         else g.link.is_limp_state) ∧
    mode_logs (limp_state_update lt g).2
      = (if lt = cm2_main_link_type.CM2_LINK_ETH_ROUTER ∧ g.link.is_limp_state = false then
           ["Device operates in Router mode"]
         else if lt = cm2_main_link_type.CM2_LINK_ETH_BRIDGE ∧ g.link.is_limp_state = true then
           ["Device operates in Bridge mode"]
         else []) := by
  cases lt <;> cases h : g.link.is_limp_state <;> simp [limp_state_update, mode_logs, h]

/-- Filtering a conditional trace. -/
theorem filter_ite {α : Type} (p : α → Bool) (c : Prop) [Decidable c] (l1 l2 : List α) :
    List.filter p (if c then l1 else l2)
      = if c then List.filter p l1 else List.filter p l2 := by
  split <;> rfl

/-- The link type returned by `cm2_util_get_link_type`, by cases. -/
theorem cm2_util_get_link_type_spec (w : World) (g : cm2_state) :
    (cm2_util_get_link_type w g).1
      = if g.link.is_used = false then cm2_main_link_type.CM2_LINK_NOT_DEFINED
        else if g.link.if_type = "eth" then
          (if w.cm2_ovsdb_is_port_name "patch-w2h" = true then
            cm2_main_link_type.CM2_LINK_ETH_BRIDGE
          else cm2_main_link_type.CM2_LINK_ETH_ROUTER)
        else if g.link.if_type = "gre" then cm2_main_link_type.CM2_LINK_GRE
        else cm2_main_link_type.CM2_LINK_NOT_DEFINED := by
  unfold cm2_util_get_link_type
  simp only [strcmp_eq_zero_iff]
  cases g.link.is_used
  · simp
  · by_cases h1 : g.link.if_type = "eth"
    · have h2 : g.link.if_type ≠ "gre" := by rw [h1]; decide
      simp [h1, h2]
    · simp [h1]

/-- The complete sequence of external calls of a tick that reaches the probe. -/
theorem external_calls_at_probe (w : World) (g : cm2_state)
    (con : schema_Connection_Manager_Uplink)
    (hext : w.cm2_is_extender = true) (hused : g.link.is_used = true)
    (hcon : w.cm2_ovsdb_connection_get_connection_by_ifname g.link.if_name = some con) :
    external_calls (cm2_connection_stability_check w g).2
      = [Event.cm2_is_extender,
         Event.cm2_ovsdb_connection_get_connection_by_ifname g.link.if_name,
         Event.target_device_connectivity_check g.link.if_name (check_opts g),
         Event.cm2_ovsdb_connection_update_unreachable_link_counter g.link.if_name
           (if (probe_answer w g).2.link_state = true then 0
            else int_add con.unreachable_link_counter 1),
         Event.cm2_ovsdb_connection_update_unreachable_router_counter g.link.if_name
           (if (probe_answer w g).2.router_state = true then 0
            else int_add con.unreachable_router_counter 1)]
        ++ (cm2_util_get_link_type w g).2
        ++ (if (cm2_connection_stability_check w g).1.link.is_limp_state = false ∧
              int_add con.unreachable_router_counter 1 > CM2_STABILITY_THRESHOLD
            then [Event.target_device_restart_managers] else [])
        ++ (if g.connected = false then
              (if (probe_answer w g).2.internet_state = false ∧
                  int_mod (int_add con.unreachable_internet_counter 1)
                    CM2_STABILITY_INTERNET_THRESH = 0
               then [Event.cm2_ovsdb_refresh_dhcp BR_WAN_NAME] else [])
              ++ [Event.cm2_ovsdb_connection_update_unreachable_internet_counter
                    g.link.if_name
                    (if (probe_answer w g).2.internet_state = true then 0
                     else int_add con.unreachable_internet_counter 1)]
            else [])
        ++ [Event.cm2_ovsdb_connection_update_ntp_state g.link.if_name
              (probe_answer w g).2.ntp_state] := by
  rw [state_at_probe w g con hext hused hcon,
    stability_check_at_probe w g con hext hused hcon]
  have hlt : external_calls (cm2_util_get_link_type w g).2
      = (cm2_util_get_link_type w g).2 := by
    unfold cm2_util_get_link_type external_calls
    simp only [apply_ite Prod.snd, filter_ite]
    split_ifs <;> simp
  have hlimp : external_calls
      (limp_state_update (cm2_util_get_link_type w g).1 g).2 = [] := by
    unfold limp_state_update external_calls
    simp only [apply_ite Prod.snd, filter_ite]
    split_ifs <;> simp
  unfold external_calls at hlt hlimp
  simp only [external_calls, probe_preamble, link_check_body, router_check_body,
    internet_check_body, ntp_check_body, List.filter_append, hlt, hlimp, filter_ite]
  cases (probe_answer w g).2.link_state <;> cases (probe_answer w g).2.router_state <;>
    cases (probe_answer w g).2.internet_state <;> cases g.connected <;>
    simp [filter_ite]

/-- A projection that ignores log lines sees the same in a trace and in its external
calls. -/
theorem filterMap_external_calls {β : Type} (f : Event → Option β)
    (hf : ∀ s m a, f (Event.LOG s m a) = none) (tr : List Event) :
    List.filterMap f (external_calls tr) = List.filterMap f tr := by
  induction tr with
  | nil => rfl
  | cons e es ih =>
    unfold external_calls at ih ⊢
    cases e <;> simp [List.filter_cons, List.filterMap_cons, hf, ih]

/-- Dropping the log lines does not change the number of restarts. -/
theorem restart_count_external_calls (tr : List Event) :
    restart_count (external_calls tr) = restart_count tr := by
  induction tr with
  | nil => rfl
  | cons e es ih =>
    unfold external_calls restart_count at ih ⊢
    cases e <;> simp [List.filter_cons, List.count_cons, ih]

/-- The link-counter updates of a tick that reaches the probe, in C arithmetic. -/
theorem link_updates_at_probe (w : World) (g : cm2_state)
    (con : schema_Connection_Manager_Uplink)
    (hext : w.cm2_is_extender = true) (hused : g.link.is_used = true)
    (hcon : w.cm2_ovsdb_connection_get_connection_by_ifname g.link.if_name = some con) :
    link_counter_updates (cm2_connection_stability_check w g).2
      = [(g.link.if_name,
          if (probe_answer w g).2.link_state = true then 0
          else int_add con.unreachable_link_counter 1)] := by
  rw [stability_check_at_probe w g con hext hused hcon]
  simp [link_counter_updates, probe_preamble, link_check_body, router_check_body,
      internet_check_body, ntp_check_body, cm2_util_get_link_type, limp_state_update,
      filterMap_ite, apply_ite Prod.snd, apply_ite Prod.fst]
  cases (probe_answer w g).2.link_state <;> simp

/-- The router-counter updates of a tick that reaches the probe, in C arithmetic. -/
theorem router_updates_at_probe (w : World) (g : cm2_state)
    (con : schema_Connection_Manager_Uplink)
    (hext : w.cm2_is_extender = true) (hused : g.link.is_used = true)
    (hcon : w.cm2_ovsdb_connection_get_connection_by_ifname g.link.if_name = some con) :
    router_counter_updates (cm2_connection_stability_check w g).2
      = [(g.link.if_name,
          if (probe_answer w g).2.router_state = true then 0
          else int_add con.unreachable_router_counter 1)] := by
  rw [stability_check_at_probe w g con hext hused hcon]
  simp [router_counter_updates, probe_preamble, link_check_body, router_check_body,
      internet_check_body, ntp_check_body, cm2_util_get_link_type, limp_state_update,
      filterMap_ite, apply_ite Prod.snd, apply_ite Prod.fst]
  cases (probe_answer w g).2.router_state <;> simp

/-- The NTP-state updates of a tick that reaches the probe. -/
theorem ntp_updates_at_probe (w : World) (g : cm2_state)
    (con : schema_Connection_Manager_Uplink)
    (hext : w.cm2_is_extender = true) (hused : g.link.is_used = true)
    (hcon : w.cm2_ovsdb_connection_get_connection_by_ifname g.link.if_name = some con) :
    ntp_state_updates (cm2_connection_stability_check w g).2
      = [(g.link.if_name, (probe_answer w g).2.ntp_state)] := by
  rw [stability_check_at_probe w g con hext hused hcon]
  simp [ntp_state_updates, probe_preamble, link_check_body, router_check_body,
      internet_check_body, ntp_check_body, cm2_util_get_link_type, limp_state_update,
      filterMap_ite, apply_ite Prod.snd, apply_ite Prod.fst]

/-- A tick changes no field of the global state other than `link.is_limp_state` and
`ble_status`. -/
theorem stability_check_frame (w : World) (g : cm2_state) :
    (cm2_connection_stability_check w g).1.link.is_used = g.link.is_used ∧
    (cm2_connection_stability_check w g).1.link.if_name = g.link.if_name ∧
    (cm2_connection_stability_check w g).1.link.if_type = g.link.if_type ∧
    (cm2_connection_stability_check w g).1.connected = g.connected ∧
    (cm2_connection_stability_check w g).1.run_stability = g.run_stability := by
  cases hext : w.cm2_is_extender
  · simp [cm2_connection_stability_check, hext]
  · cases hused : g.link.is_used
    · simp [cm2_connection_stability_check, hext, hused]
    · cases hcon : w.cm2_ovsdb_connection_get_connection_by_ifname g.link.if_name with
      | none => simp [cm2_connection_stability_check, hext, hused, hcon]
      | some con =>
        rw [state_at_probe w g con hext hused hcon]
        have h := limp_state_update_frame (cm2_util_get_link_type w g).1 g
        rw [hused] at h
        exact ⟨h.1, h.2.1, h.2.2.1, h.2.2.2.1, h.2.2.2.2.1⟩

/-- Log lines do not change a record. -/
theorem foldl_record_apply_external_calls (n : String) (tr : List Event)
    (r : schema_Connection_Manager_Uplink) :
    List.foldl (record_apply n) r (external_calls tr)
      = List.foldl (record_apply n) r tr := by
  induction tr generalizing r with
  | nil => rfl
  | cons e es ih =>
    unfold external_calls at ih ⊢
    cases e <;> simp [List.filter_cons, record_apply, ih]

/-- The topology lookup does not change a record. -/
theorem foldl_record_apply_link_type (n : String) (w : World) (g : cm2_state)
    (r : schema_Connection_Manager_Uplink) :
    List.foldl (record_apply n) r (cm2_util_get_link_type w g).2 = r := by
  unfold cm2_util_get_link_type
  simp only [apply_ite Prod.snd]
  split_ifs <;> simp [record_apply]

/-- The record of the active interface after the store updates of a tick that reaches
the probe, in C arithmetic. -/
theorem record_after_tick (w : World) (g : cm2_state)
    (con : schema_Connection_Manager_Uplink)
    (hext : w.cm2_is_extender = true) (hused : g.link.is_used = true)
    (hcon : w.cm2_ovsdb_connection_get_connection_by_ifname g.link.if_name = some con) :
    List.foldl (record_apply g.link.if_name) con (cm2_connection_stability_check w g).2
      = { unreachable_link_counter :=
            if (probe_answer w g).2.link_state = true then 0
            else int_add con.unreachable_link_counter 1
          unreachable_router_counter :=
            if (probe_answer w g).2.router_state = true then 0
            else int_add con.unreachable_router_counter 1
          unreachable_internet_counter :=
            if g.connected = false then
              (if (probe_answer w g).2.internet_state = true then 0
               else int_add con.unreachable_internet_counter 1)
            else con.unreachable_internet_counter } := by
  rw [← foldl_record_apply_external_calls, external_calls_at_probe w g con hext hused hcon]
  simp only [List.foldl_append, List.foldl_cons, List.foldl_nil,
    foldl_record_apply_link_type]
  cases g.connected <;> cases (probe_answer w g).2.internet_state <;>
    split_ifs <;> simp [record_apply]

/-- The increment of a counter that holds a natural number below `INT_MAX`. -/
theorem int_add_one_nat (c : Nat) (h : c + 1 ≤ 2147483647) :
    int_add (c : Int) 1 = ((c + 1 : Nat) : Int) := by
  unfold int_add int_wrap
  omega

/-- The test `counter % 6 == 0` on the incremented counter, for a natural number. -/
theorem int_mod_incr_nat (c : Nat) (h : c + 1 ≤ 2147483647) :
    int_mod (int_add (c : Int) 1) CM2_STABILITY_INTERNET_THRESH = 0 ↔ 6 ∣ c + 1 := by
  rw [int_add_one_nat c h]
  unfold int_mod CM2_STABILITY_INTERNET_THRESH
  rw [Int.tmod_eq_emod (by omega) (by decide)]
  omega

/-- The mask depends on `connected` only. -/
theorem check_opts_congr (g1 g2 : cm2_state) (h : g1.connected = g2.connected) :
    check_opts g1 = check_opts g2 := by
  unfold check_opts
  rw [h]

/-- One more tick of a run. -/
theorem run_ticks_cons (s : link_store) (g : cm2_state) (e : tick_env)
    (es : List tick_env) :
    run_ticks s g (e :: es)
      = ((run_ticks (store_apply s (cm2_connection_stability_check (store_world s e) g).2)
            (cm2_connection_stability_check (store_world s e) g).1 es).1,
         (run_ticks (store_apply s (cm2_connection_stability_check (store_world s e) g).2)
            (cm2_connection_stability_check (store_world s e) g).1 es).2.1,
         cm2_connection_stability_check (store_world s e) g ::
           (run_ticks (store_apply s (cm2_connection_stability_check (store_world s e) g).2)
            (cm2_connection_stability_check (store_world s e) g).1 es).2.2) := rfl

/-- The store entry of the active interface after a tick in the store world. -/
theorem store_after_tick (s : link_store) (g : cm2_state) (e : tick_env)
    (con : schema_Connection_Manager_Uplink)
    (hused : g.link.is_used = true) (hs : s g.link.if_name = some con) :
    store_apply s (cm2_connection_stability_check (store_world s e) g).2 g.link.if_name
      = some
        { unreachable_link_counter :=
            if (e.target_device_connectivity_check g.link.if_name
                (check_opts g)).2.link_state = true then 0
            else int_add con.unreachable_link_counter 1
          unreachable_router_counter :=
            if (e.target_device_connectivity_check g.link.if_name
                (check_opts g)).2.router_state = true then 0
            else int_add con.unreachable_router_counter 1
          unreachable_internet_counter :=
            if g.connected = false then
              (if (e.target_device_connectivity_check g.link.if_name
                  (check_opts g)).2.internet_state = true then 0
               else int_add con.unreachable_internet_counter 1)
            else con.unreachable_internet_counter } := by
  unfold store_apply
  rw [hs, Option.map_some']
  rw [record_after_tick (store_world s e) g con rfl hused hs]
  rfl

/-- A run of consecutive Internet failures that starts at stored counter `c`. -/
theorem internet_failure_run (envs : List tick_env) :
    ∀ (s : link_store) (g : cm2_state) (con : schema_Connection_Manager_Uplink) (c : Nat),
      g.link.is_used = true → g.connected = false → s g.link.if_name = some con →
      con.unreachable_internet_counter = (c : Int) →
      (∀ e ∈ envs, (e.target_device_connectivity_check g.link.if_name
          (check_opts g)).2.internet_state = false) →
      c + envs.length ≤ 2147483647 →
      (∃ con2, (run_ticks s g envs).1 g.link.if_name = some con2 ∧
        con2.unreachable_internet_counter = ((c + envs.length : Nat) : Int)) ∧
      ((run_ticks s g envs).2.1.link.is_used = true ∧
        (run_ticks s g envs).2.1.link.if_name = g.link.if_name ∧
        (run_ticks s g envs).2.1.connected = false) ∧
      (run_ticks s g envs).2.2.length = envs.length ∧
      total_dhcp_refreshes (run_ticks s g envs).2.2 = (c + envs.length) / 6 - c / 6 ∧
      (∀ k r, (run_ticks s g envs).2.2[k]? = some r →
        dhcp_refreshes r.2 = if 6 ∣ c + k + 1 then [BR_WAN_NAME] else []) := by
  induction envs with
  | nil =>
    intro s g con c hused hconn hs hc _ _
    refine ⟨⟨con, hs, by simpa using hc⟩, ⟨hused, rfl, hconn⟩, rfl, ?_, ?_⟩
    · simp [run_ticks, total_dhcp_refreshes]
    · intro k r h; simp [run_ticks] at h
  | cons e es ih =>
    intro s g con c hused hconn hs hc hfail hlen
    have hlen2 : c + 1 + es.length ≤ 2147483647 := by
      simp only [List.length_cons] at hlen; omega
    have hfr := stability_check_frame (store_world s e) g
    have hused2 : (cm2_connection_stability_check (store_world s e) g).1.link.is_used
        = true := by rw [hfr.1]; exact hused
    have hname := hfr.2.1
    have hconn2 : (cm2_connection_stability_check (store_world s e) g).1.connected
        = false := by rw [hfr.2.2.2.1]; exact hconn
    have hopts := check_opts_congr _ g (hconn2.trans hconn.symm)
    have hfe := hfail e (List.mem_cons_self e es)
    have hst := store_after_tick s g e con hused hs
    rw [hconn, hfe, hc, int_add_one_nat c (by omega)] at hst
    simp only [if_true, Bool.false_eq_true, if_false] at hst
    have hd := dhcp_refreshes_at_probe (store_world s e) g con rfl hused hs
    have hpa : (probe_answer (store_world s e) g).2.internet_state = false := hfe
    rw [hconn, hpa, hc] at hd
    simp only [true_and, int_mod_incr_nat c (by omega)] at hd
    have ih2 := ih (store_apply s (cm2_connection_stability_check (store_world s e) g).2)
      (cm2_connection_stability_check (store_world s e) g).1 _ (c + 1) hused2 hconn2
      (by rw [hname]; exact hst) (by simp)
      (by
        intro e2 he2
        rw [hname, hopts]
        exact hfail e2 (List.mem_cons_of_mem e he2))
      hlen2
    rw [hname] at ih2
    obtain ⟨⟨con2, hcon2, hval⟩, ⟨hu, hn, hcn⟩, hl, htot, hk⟩ := ih2
    rw [run_ticks_cons]
    refine ⟨⟨con2, hcon2, ?_⟩, ⟨hu, hn, hcn⟩, ?_, ?_, ?_⟩
    · rw [hval]; simp only [List.length_cons]; congr 1; omega
    · simp only [List.length_cons, hl]
    · unfold total_dhcp_refreshes at htot ⊢
      simp only [List.map_cons, List.sum_cons, htot, hd, List.length_cons]
      split_ifs with h6
      · simp only [List.length_singleton]; omega
      · simp only [List.length_nil]; omega
    · intro k r hr
      cases k with
      | zero =>
        simp only [List.getElem?_cons_zero, Option.some.injEq] at hr
        rw [← hr, hd]
      | succ k2 =>
        simp only [List.getElem?_cons_succ] at hr
        rw [hk k2 r hr]
        have : c + 1 + k2 + 1 = c + (k2 + 1) + 1 := by omega
        rw [this]

/-- A run of consecutive router failures that starts at stored counter `c`, the limp
state being clear after every tick. -/
theorem router_failure_run (envs : List tick_env) :
    ∀ (s : link_store) (g : cm2_state) (con : schema_Connection_Manager_Uplink) (c : Nat),
      g.link.is_used = true → s g.link.if_name = some con →
      con.unreachable_router_counter = (c : Int) →
      (∀ e ∈ envs, (e.target_device_connectivity_check g.link.if_name
          (check_opts g)).2.router_state = false) →
      c + envs.length ≤ 2147483647 →
      (∀ r ∈ (run_ticks s g envs).2.2, r.1.link.is_limp_state = false) →
      (∃ con2, (run_ticks s g envs).1 g.link.if_name = some con2 ∧
        con2.unreachable_router_counter = ((c + envs.length : Nat) : Int)) ∧
      (run_ticks s g envs).2.2.length = envs.length ∧
      total_restarts (run_ticks s g envs).2.2 = (c + envs.length - 5) - (c - 5) ∧
      (∀ k r, (run_ticks s g envs).2.2[k]? = some r →
        restart_count r.2 = if 5 < c + k + 1 then 1 else 0) := by
  induction envs with
  | nil =>
    intro s g con c _ hs hc _ _ _
    refine ⟨⟨con, hs, by simpa using hc⟩, rfl, ?_, ?_⟩
    · simp [run_ticks, total_restarts]
    · intro k r h; simp [run_ticks] at h
  | cons e es ih =>
    intro s g con c hused hs hc hfail hlen hlimp
    have hlen2 : c + 1 + es.length ≤ 2147483647 := by
      simp only [List.length_cons] at hlen; omega
    have hfr := stability_check_frame (store_world s e) g
    have hused2 : (cm2_connection_stability_check (store_world s e) g).1.link.is_used
        = true := by rw [hfr.1]; exact hused
    have hname := hfr.2.1
    have hopts := check_opts_congr _ g hfr.2.2.2.1
    have hfe := hfail e (List.mem_cons_self e es)
    have hst := store_after_tick s g e con hused hs
    rw [hfe, hc, int_add_one_nat c (by omega)] at hst
    simp only [Bool.false_eq_true, if_false] at hst
    rw [run_ticks_cons] at hlimp
    have hl0 : (cm2_connection_stability_check (store_world s e) g).1.link.is_limp_state
        = false := hlimp _ (List.mem_cons_self _ _)
    have hd := restart_count_at_probe (store_world s e) g con rfl hused hs
    rw [hl0, hc, int_add_one_nat c (by omega)] at hd
    unfold CM2_STABILITY_THRESHOLD at hd
    have hd2 : restart_count (cm2_connection_stability_check (store_world s e) g).2
        = if 5 < c + 1 then 1 else 0 := by
      rw [hd]
      by_cases h5 : 5 < c + 1
      · have h : ((c + 1 : Nat) : Int) > 5 := by omega
        rw [if_pos ⟨rfl, h⟩, if_pos h5]
      · have h : ¬ ((c + 1 : Nat) : Int) > 5 := by omega
        rw [if_neg (fun hh => h hh.2), if_neg h5]
    have ih2 := ih (store_apply s (cm2_connection_stability_check (store_world s e) g).2)
      (cm2_connection_stability_check (store_world s e) g).1 _ (c + 1) hused2
      (by rw [hname]; exact hst) (by simp)
      (by
        intro e2 he2
        rw [hname, hopts]
        exact hfail e2 (List.mem_cons_of_mem e he2))
      hlen2
      (fun r hr => hlimp r (List.mem_cons_of_mem _ hr))
    rw [hname] at ih2
    obtain ⟨⟨con2, hcon2, hval⟩, hl, htot, hk⟩ := ih2
    rw [run_ticks_cons]
    refine ⟨⟨con2, hcon2, ?_⟩, ?_, ?_, ?_⟩
    · rw [hval]; simp only [List.length_cons]; congr 1; omega
    · simp only [List.length_cons, hl]
    · unfold total_restarts at htot ⊢
      simp only [List.map_cons, List.sum_cons, htot, hd2, List.length_cons]
      split_ifs with h5 <;> omega
    · intro k r hr
      cases k with
      | zero =>
        simp only [List.getElem?_cons_zero, Option.some.injEq] at hr
        rw [← hr, hd2]
      | succ k2 =>
        simp only [List.getElem?_cons_succ] at hr
        rw [hk k2 r hr]
        have : c + 1 + k2 + 1 = c + (k2 + 1) + 1 := by omega
        rw [this]

/-- A run over a concatenation is the run over the first part followed by the run over
the second part from the store and state the first one leaves. -/
theorem run_ticks_append (l1 l2 : List tick_env) :
    ∀ (s : link_store) (g : cm2_state),
      run_ticks s g (l1 ++ l2)
        = ((run_ticks (run_ticks s g l1).1 (run_ticks s g l1).2.1 l2).1,
           (run_ticks (run_ticks s g l1).1 (run_ticks s g l1).2.1 l2).2.1,
           (run_ticks s g l1).2.2
             ++ (run_ticks (run_ticks s g l1).1 (run_ticks s g l1).2.1 l2).2.2) := by
  induction l1 with
  | nil => intro s g; rfl
  | cons e es ih =>
    intro s g
    rw [List.cons_append, run_ticks_cons, run_ticks_cons, ih]
    rfl

/-! ## The claims -/

/-- C1, counter update rule. On every tick that reaches the probe (extender role, link in
use, record `con` found for `if_name`) exactly one update of the link counter and exactly
one of the router counter are issued, and exactly one of the Internet counter when the
Internet check is in the mask; the value written is `0` when the probe reports the check
as passed and the stored counter of `con` plus one when it reports it as failed. The
stored counters are C `int`s whose increment is defined (`int_incr_defined`). -/
theorem counter_update_rule (w : World) (g : cm2_state)
    (con : schema_Connection_Manager_Uplink)
    (hext : w.cm2_is_extender = true) (hused : g.link.is_used = true)
    (hcon : w.cm2_ovsdb_connection_get_connection_by_ifname g.link.if_name = some con)
    (hl : int_incr_defined con.unreachable_link_counter)
    (hr : int_incr_defined con.unreachable_router_counter)
    (hi : int_incr_defined con.unreachable_internet_counter) :
    link_counter_updates (cm2_connection_stability_check w g).2 =
        [(g.link.if_name,
          if (probe_answer w g).2.link_state = true then 0
          else con.unreachable_link_counter + 1)] ∧
    router_counter_updates (cm2_connection_stability_check w g).2 =
        [(g.link.if_name,
          if (probe_answer w g).2.router_state = true then 0
          else con.unreachable_router_counter + 1)] ∧
    (check_opts g &&& INTERNET_CHECK ≠ 0 →
      internet_counter_updates (cm2_connection_stability_check w g).2 =
        [(g.link.if_name,
          if (probe_answer w g).2.internet_state = true then 0
          else con.unreachable_internet_counter + 1)]) := by
  rw [stability_check_at_probe w g con hext hused hcon, check_opts_internet]
  have el := int_add_one_of_defined _ hl
  have er := int_add_one_of_defined _ hr
  have ei := int_add_one_of_defined _ hi
  refine ⟨?_, ?_, ?_⟩
  · simp [link_counter_updates, probe_preamble, link_check_body, router_check_body,
      internet_check_body, ntp_check_body, cm2_util_get_link_type, limp_state_update, el,
      filterMap_ite, apply_ite Prod.snd, apply_ite Prod.fst]
    cases (probe_answer w g).2.link_state <;> simp
  · simp [router_counter_updates, probe_preamble, link_check_body, router_check_body,
      internet_check_body, ntp_check_body, cm2_util_get_link_type, limp_state_update, er,
      filterMap_ite, apply_ite Prod.snd, apply_ite Prod.fst]
    cases (probe_answer w g).2.router_state <;> simp
  · intro hc
    simp [internet_counter_updates, probe_preamble, link_check_body, router_check_body,
      internet_check_body, ntp_check_body, cm2_util_get_link_type, limp_state_update, ei, hc,
      filterMap_ite, apply_ite Prod.snd, apply_ite Prod.fst]
    cases (probe_answer w g).2.internet_state <;> simp

/-- Witness of C1: stored counters 3, 5, 5; the probe reports link and Internet as failed
and the router as passed; the Internet check is requested. -/
theorem counter_update_rule_witness :
    (world_a.cm2_is_extender = true ∧ state_limp.link.is_used = true ∧
      world_a.cm2_ovsdb_connection_get_connection_by_ifname state_limp.link.if_name
        = some con_a) ∧
    (int_incr_defined 3 ∧ int_incr_defined 5) ∧
    link_counter_updates (cm2_connection_stability_check world_a state_limp).2
      = [("eth0", 4)] ∧
    router_counter_updates (cm2_connection_stability_check world_a state_limp).2
      = [("eth0", 0)] ∧
    internet_counter_updates (cm2_connection_stability_check world_a state_limp).2
      = [("eth0", 6)] :=
  have h := counter_update_rule world_a state_limp con_a rfl rfl rfl
    (by decide) (by decide) (by decide)
  ⟨⟨rfl, rfl, rfl⟩, ⟨by decide, by decide⟩, h.1, h.2.1, h.2.2 (by decide)⟩

/-- C2, router-restart trigger. On every tick that reaches the probe,
`target_device_restart_managers` is invoked if and only if `is_limp_state` is false once
the link-mode classification of the tick has been applied and the stored router counter of
the fetched record plus one is greater than 5; it is invoked at most once in the tick. The
stored router counter is a C `int` whose increment is defined. -/
theorem router_restart_trigger (w : World) (g : cm2_state)
    (con : schema_Connection_Manager_Uplink)
    (hext : w.cm2_is_extender = true) (hused : g.link.is_used = true)
    (hcon : w.cm2_ovsdb_connection_get_connection_by_ifname g.link.if_name = some con)
    (hr : int_incr_defined con.unreachable_router_counter) :
    (0 < restart_count (cm2_connection_stability_check w g).2 ↔
      (limp_state_update (cm2_util_get_link_type w g).1 g).1.link.is_limp_state = false ∧
        con.unreachable_router_counter + 1 > 5) ∧
    (cm2_connection_stability_check w g).1.link.is_limp_state
      = (limp_state_update (cm2_util_get_link_type w g).1 g).1.link.is_limp_state ∧
    restart_count (cm2_connection_stability_check w g).2 ≤ 1 := by
  have hs := state_at_probe w g con hext hused hcon
  have hc := restart_count_at_probe w g con hext hused hcon
  rw [int_add_one_of_defined _ hr, hs] at hc
  rw [hc, hs]
  unfold CM2_STABILITY_THRESHOLD
  refine ⟨?_, rfl, ?_⟩
  · split_ifs with h
    · simp [h]
    · simp only [lt_irrefl, false_iff]; exact h
  · split_ifs <;> simp

/-- Witness of C2: Ethernet uplink with the port `patch-w2h` present (bridge), limp state
set at tick start, stored router counter 5: the flag is cleared, 5 + 1 > 5, and the
restart is invoked once. -/
theorem router_restart_trigger_witness :
    (world_a.cm2_is_extender = true ∧ state_limp.link.is_used = true ∧
      world_a.cm2_ovsdb_connection_get_connection_by_ifname state_limp.link.if_name
        = some con_a) ∧
    int_incr_defined 5 ∧
    restart_count (cm2_connection_stability_check world_a state_limp).2 = 1 ∧
    (0 < restart_count (cm2_connection_stability_check world_a state_limp).2 ↔
      (limp_state_update (cm2_util_get_link_type world_a state_limp).1
          state_limp).1.link.is_limp_state = false ∧
        con_a.unreachable_router_counter + 1 > 5) :=
  ⟨⟨rfl, rfl, rfl⟩, by decide, by decide,
   (router_restart_trigger world_a state_limp con_a rfl rfl rfl (by decide)).1⟩

/-- C3, Internet remediation trigger. On every tick that reaches the probe with a
non-negative stored Internet counter (a C `int`, so at most `INT_MAX`),
`cm2_ovsdb_refresh_dhcp` is invoked if and only if the Internet check is in the mask and
the Internet counter written in this tick is positive and divisible by 6; it is invoked at
most once. It is invoked when the value written is 6 or 12, not when it is 1 to 5 or
7 to 11, and not when the Internet check passes, where the value written is 0. -/
theorem internet_remediation_trigger (w : World) (g : cm2_state)
    (con : schema_Connection_Manager_Uplink)
    (hext : w.cm2_is_extender = true) (hused : g.link.is_used = true)
    (hcon : w.cm2_ovsdb_connection_get_connection_by_ifname g.link.if_name = some con)
    (h0 : 0 ≤ con.unreachable_internet_counter)
    (hmax : con.unreachable_internet_counter ≤ INT_MAX) :
    (dhcp_refreshes (cm2_connection_stability_check w g).2 ≠ [] ↔
      check_opts g &&& INTERNET_CHECK ≠ 0 ∧
      ∃ v, internet_counter_updates (cm2_connection_stability_check w g).2
              = [(g.link.if_name, v)] ∧ 0 < v ∧ (6 : Int) ∣ v) ∧
    (dhcp_refreshes (cm2_connection_stability_check w g).2).length ≤ 1 ∧
    (∀ v, internet_counter_updates (cm2_connection_stability_check w g).2
              = [(g.link.if_name, v)] →
        (v = 6 ∨ v = 12 →
          dhcp_refreshes (cm2_connection_stability_check w g).2 = [BR_WAN_NAME]) ∧
        ((1 ≤ v ∧ v ≤ 5) ∨ (7 ≤ v ∧ v ≤ 11) →
          dhcp_refreshes (cm2_connection_stability_check w g).2 = [])) ∧
    (check_opts g &&& INTERNET_CHECK ≠ 0 → (probe_answer w g).2.internet_state = true →
      internet_counter_updates (cm2_connection_stability_check w g).2
          = [(g.link.if_name, 0)] ∧
      dhcp_refreshes (cm2_connection_stability_check w g).2 = []) := by
  have hd := dhcp_refreshes_at_probe w g con hext hused hcon
  have hu := internet_updates_at_probe w g con hext hused hcon
  have hm := int_mod_incr_eq_zero_iff _ h0 hmax
  rw [hd, hu, check_opts_internet]
  cases hconn : g.connected
  · cases hst : (probe_answer w g).2.internet_state
    · simp only [true_and, Bool.false_eq_true, if_false, if_true, hm]
      refine ⟨?_, ?_, ?_, ?_⟩
      · constructor
        · intro h
          split_ifs at h with hp
          · exact ⟨_, rfl, hp.1, hp.2⟩
          · exact absurd rfl h
        · rintro ⟨v, hv, hpos, hdvd⟩
          simp only [List.cons.injEq, Prod.mk.injEq, true_and, and_true] at hv
          rw [← hv] at hpos hdvd
          simp [hpos, hdvd]
      · split_ifs <;> simp
      · intro v hv
        simp only [List.cons.injEq, Prod.mk.injEq, true_and, and_true] at hv
        rw [hv]
        constructor
        · intro h
          have : 0 < v ∧ (6 : Int) ∣ v := by
            rcases h with h | h <;> subst h <;> decide
          simp [this]
        · intro h
          have : ¬ (0 < v ∧ (6 : Int) ∣ v) := by
            rintro ⟨-, hdvd⟩
            omega
          simp [this]
      · intro _ h; exact absurd h (by simp)
    · simp
  · simp

/-- Witness of C3: stored Internet counter 5, Internet check requested and failed: the
value written is 6 and the DHCP refresh is invoked. -/
theorem internet_remediation_trigger_witness :
    (world_a.cm2_is_extender = true ∧ state_limp.link.is_used = true ∧
      world_a.cm2_ovsdb_connection_get_connection_by_ifname state_limp.link.if_name
        = some con_a) ∧
    ((0 : Int) ≤ 5 ∧ (5 : Int) ≤ INT_MAX) ∧
    dhcp_refreshes (cm2_connection_stability_check world_a state_limp).2 = ["br-wan"] ∧
    (dhcp_refreshes (cm2_connection_stability_check world_a state_limp).2 ≠ [] ↔
      check_opts state_limp &&& INTERNET_CHECK ≠ 0 ∧
      ∃ v, internet_counter_updates (cm2_connection_stability_check world_a state_limp).2
              = [(state_limp.link.if_name, v)] ∧ 0 < v ∧ (6 : Int) ∣ v) :=
  ⟨⟨rfl, rfl, rfl⟩, by decide, by decide,
   (internet_remediation_trigger world_a state_limp con_a rfl rfl rfl
      (by decide) (by decide)).1⟩

/-- C4, check-mask membership. On every tick that reaches the probe, the probe is called
once, with a mask that contains Link, Router and NTP and that contains Internet if and
only if `g_state.connected` is false; when `g_state.connected` is true the tick issues no
update of the Internet counter and no DHCP refresh. -/
theorem check_mask_membership (w : World) (g : cm2_state)
    (con : schema_Connection_Manager_Uplink)
    (hext : w.cm2_is_extender = true) (hused : g.link.is_used = true)
    (hcon : w.cm2_ovsdb_connection_get_connection_by_ifname g.link.if_name = some con) :
    (∃ opts, probe_calls (cm2_connection_stability_check w g).2 = [(g.link.if_name, opts)] ∧
        opts &&& LINK_CHECK ≠ 0 ∧ opts &&& ROUTER_CHECK ≠ 0 ∧ opts &&& NTP_CHECK ≠ 0 ∧
        (opts &&& INTERNET_CHECK ≠ 0 ↔ g.connected = false)) ∧
    (g.connected = true →
      internet_counter_updates (cm2_connection_stability_check w g).2 = [] ∧
      dhcp_refreshes (cm2_connection_stability_check w g).2 = []) := by
  refine ⟨⟨check_opts g, ?_, check_opts_link g, check_opts_router g, check_opts_ntp g,
    check_opts_internet g⟩, ?_⟩
  · rw [stability_check_at_probe w g con hext hused hcon]
    simp [probe_calls, probe_preamble, link_check_body, router_check_body,
      internet_check_body, ntp_check_body, cm2_util_get_link_type, limp_state_update,
      filterMap_ite, apply_ite Prod.snd, apply_ite Prod.fst]
  · intro hc
    rw [dhcp_refreshes_at_probe w g con hext hused hcon,
      internet_updates_at_probe w g con hext hused hcon]
    simp [hc]

/-- Witness of C4: a connected device; the mask passed is Link, Router and NTP
(1 + 2 + 8 = 11) and neither an Internet counter update nor a DHCP refresh is issued,
although the probe reports the Internet check as failed at stored counter 5. -/
theorem check_mask_membership_witness :
    (world_a.cm2_is_extender = true ∧ state_connected.link.is_used = true ∧
      world_a.cm2_ovsdb_connection_get_connection_by_ifname state_connected.link.if_name
        = some con_a) ∧
    probe_calls (cm2_connection_stability_check world_a state_connected).2
      = [("eth0", 11)] ∧
    internet_counter_updates (cm2_connection_stability_check world_a state_connected).2
      = [] ∧
    dhcp_refreshes (cm2_connection_stability_check world_a state_connected).2 = [] :=
  have h := check_mask_membership world_a state_connected con_a rfl rfl rfl
  ⟨⟨rfl, rfl, rfl⟩, by decide, (h.2 rfl).1, (h.2 rfl).2⟩

/-- C5, limp-state transition. On a tick that reaches the probe: classified Ethernet
router, `is_limp_state` is true after the tick; classified Ethernet bridge, it is false
after the tick; classified GRE tunnel or not-defined, it is unchanged. A mode log line is
emitted exactly when the flag changes value (and then only one), so two consecutive ticks
that are both classified Ethernet bridge, the second starting from the state the first
one leaves, emit at most one "Bridge mode" line in total. -/
theorem limp_state_transition (w : World) (g : cm2_state)
    (con : schema_Connection_Manager_Uplink)
    (hext : w.cm2_is_extender = true) (hused : g.link.is_used = true)
    (hcon : w.cm2_ovsdb_connection_get_connection_by_ifname g.link.if_name = some con) :
    ((cm2_util_get_link_type w g).1 = cm2_main_link_type.CM2_LINK_ETH_ROUTER →
      (cm2_connection_stability_check w g).1.link.is_limp_state = true) ∧
    ((cm2_util_get_link_type w g).1 = cm2_main_link_type.CM2_LINK_ETH_BRIDGE →
      (cm2_connection_stability_check w g).1.link.is_limp_state = false) ∧
    ((cm2_util_get_link_type w g).1 = cm2_main_link_type.CM2_LINK_GRE ∨
        (cm2_util_get_link_type w g).1 = cm2_main_link_type.CM2_LINK_NOT_DEFINED →
      (cm2_connection_stability_check w g).1.link.is_limp_state = g.link.is_limp_state) ∧
    (mode_logs (cm2_connection_stability_check w g).2 ≠ [] ↔
      (cm2_connection_stability_check w g).1.link.is_limp_state ≠ g.link.is_limp_state) ∧
    (mode_logs (cm2_connection_stability_check w g).2).length ≤ 1 ∧
    (∀ (w2 : World) (con2 : schema_Connection_Manager_Uplink),
      w2.cm2_is_extender = true →
      w2.cm2_ovsdb_connection_get_connection_by_ifname
          (cm2_connection_stability_check w g).1.link.if_name = some con2 →
      (cm2_util_get_link_type w g).1 = cm2_main_link_type.CM2_LINK_ETH_BRIDGE →
      (cm2_util_get_link_type w2 (cm2_connection_stability_check w g).1).1
          = cm2_main_link_type.CM2_LINK_ETH_BRIDGE →
      (mode_logs (cm2_connection_stability_check w g).2 ++
        mode_logs (cm2_connection_stability_check w2
          (cm2_connection_stability_check w g).1).2).count
            "Device operates in Bridge mode" ≤ 1) := by
  have hs := state_at_probe w g con hext hused hcon
  have hm := mode_logs_at_probe w g con hext hused hcon
  have hsp := limp_state_update_spec (cm2_util_get_link_type w g).1 g
  have hfr := limp_state_update_frame (cm2_util_get_link_type w g).1 g
  rw [hs, hm, hsp.1, hsp.2]
  refine ⟨?_, ?_, ?_, ?_, ?_, ?_⟩
  · intro h; simp [h]
  · intro h; simp [h]
  · rintro (h | h) <;> simp [h]
  · cases (cm2_util_get_link_type w g).1 <;> cases g.link.is_limp_state <;> simp
  · cases (cm2_util_get_link_type w g).1 <;> cases g.link.is_limp_state <;> simp
  · intro w2 con2 hext2 hcon2 hb1 hb2
    have hused2 : (limp_state_update (cm2_util_get_link_type w g).1 g).1.link.is_used
        = true := by rw [hfr.1]; exact hused
    have hm2 := mode_logs_at_probe w2 _ con2 hext2 hused2 hcon2
    have hsp2 := limp_state_update_spec
      (cm2_util_get_link_type w2 (limp_state_update (cm2_util_get_link_type w g).1 g).1).1
      (limp_state_update (cm2_util_get_link_type w g).1 g).1
    rw [hm2, hsp2.2, hb2, hsp.1, hb1]
    cases g.link.is_limp_state <;> simp

/-- Witness of C5: an Ethernet uplink with the port `patch-w2h` present and the limp
state set at tick start: the tick clears the flag and logs "Bridge mode" once; a second
tick in the same world logs nothing more. -/
theorem limp_state_transition_witness :
    (world_a.cm2_is_extender = true ∧ state_limp.link.is_used = true ∧
      world_a.cm2_ovsdb_connection_get_connection_by_ifname state_limp.link.if_name
        = some con_a) ∧
    (cm2_util_get_link_type world_a state_limp).1
      = cm2_main_link_type.CM2_LINK_ETH_BRIDGE ∧
    (cm2_connection_stability_check world_a state_limp).1.link.is_limp_state = false ∧
    mode_logs (cm2_connection_stability_check world_a state_limp).2
      = ["Device operates in Bridge mode"] ∧
    (mode_logs (cm2_connection_stability_check world_a state_limp).2 ++
      mode_logs (cm2_connection_stability_check world_a
        (cm2_connection_stability_check world_a state_limp).1).2).count
          "Device operates in Bridge mode" ≤ 1 :=
  have h := limp_state_transition world_a state_limp con_a rfl rfl rfl
  ⟨⟨rfl, rfl, rfl⟩, by decide, h.2.1 (by decide), by decide,
   h.2.2.2.2.2 world_a con_a rfl rfl (by decide) (by decide)⟩

/-- C6, link-mode classification. `cm2_util_get_link_type` returns not-defined when
`link.is_used` is false; otherwise, for `if_type` "eth" it returns Ethernet bridge when
the port "patch-w2h" exists and Ethernet router when it does not; for `if_type` "gre" it
returns GRE tunnel; for every other `if_type` it returns not-defined. Its result (and the
lookup it makes) is the same for any two worlds and states that agree on `is_used`,
`if_type` and the lookup of "patch-w2h", whatever `is_limp_state`, the other fields and
the other answers of the world are. -/
theorem link_mode_classification (w : World) (g : cm2_state) :
    (g.link.is_used = false →
      (cm2_util_get_link_type w g).1 = cm2_main_link_type.CM2_LINK_NOT_DEFINED) ∧
    (g.link.is_used = true → g.link.if_type = "eth" →
      w.cm2_ovsdb_is_port_name "patch-w2h" = true →
      (cm2_util_get_link_type w g).1 = cm2_main_link_type.CM2_LINK_ETH_BRIDGE) ∧
    (g.link.is_used = true → g.link.if_type = "eth" →
      w.cm2_ovsdb_is_port_name "patch-w2h" = false →
      (cm2_util_get_link_type w g).1 = cm2_main_link_type.CM2_LINK_ETH_ROUTER) ∧
    (g.link.is_used = true → g.link.if_type = "gre" →
      (cm2_util_get_link_type w g).1 = cm2_main_link_type.CM2_LINK_GRE) ∧
    (g.link.is_used = true → g.link.if_type ≠ "eth" → g.link.if_type ≠ "gre" →
      (cm2_util_get_link_type w g).1 = cm2_main_link_type.CM2_LINK_NOT_DEFINED) ∧
    (∀ (w2 : World) (g2 : cm2_state),
      g2.link.is_used = g.link.is_used → g2.link.if_type = g.link.if_type →
      w2.cm2_ovsdb_is_port_name "patch-w2h" = w.cm2_ovsdb_is_port_name "patch-w2h" →
      cm2_util_get_link_type w2 g2 = cm2_util_get_link_type w g) := by
  rw [cm2_util_get_link_type_spec]
  refine ⟨?_, ?_, ?_, ?_, ?_, ?_⟩
  · intro h; simp [h]
  · intro h1 h2 h3; simp [h1, h2, h3]
  · intro h1 h2 h3; simp [h1, h2, h3]
  · intro h1 h2
    have h3 : g.link.if_type ≠ "eth" := by rw [h2]; decide
    simp [h1, h2]
  · intro h1 h2 h3; simp [h1, h2, h3]
  · intro w2 g2 h1 h2 h3
    unfold cm2_util_get_link_type
    rw [h1, h2, h3]

/-- Witness of C6: the four classifications on concrete inputs, and an unused link. -/
theorem link_mode_classification_witness :
    (cm2_util_get_link_type world_a state_limp).1
      = cm2_main_link_type.CM2_LINK_ETH_BRIDGE ∧
    (cm2_util_get_link_type
      { world_a with cm2_ovsdb_is_port_name := fun _ => false } state_limp).1
      = cm2_main_link_type.CM2_LINK_ETH_ROUTER ∧
    (cm2_util_get_link_type world_a
      { state_limp with link := { state_limp.link with if_type := "gre" } }).1
      = cm2_main_link_type.CM2_LINK_GRE ∧
    (cm2_util_get_link_type world_a
      { state_limp with link := { state_limp.link with if_type := "vif" } }).1
      = cm2_main_link_type.CM2_LINK_NOT_DEFINED ∧
    (cm2_util_get_link_type world_a state_unused).1
      = cm2_main_link_type.CM2_LINK_NOT_DEFINED :=
  ⟨(link_mode_classification world_a state_limp).2.1 rfl rfl rfl,
   (link_mode_classification
      { world_a with cm2_ovsdb_is_port_name := fun _ => false } state_limp).2.2.1
        rfl rfl rfl,
   (link_mode_classification world_a
      { state_limp with link := { state_limp.link with if_type := "gre" } }).2.2.2.1
        rfl rfl,
   (link_mode_classification world_a
      { state_limp with link := { state_limp.link with if_type := "vif" } }).2.2.2.2.1
        rfl (by decide) (by decide),
   (link_mode_classification world_a state_unused).1 rfl⟩

/-- C7, waiting state. On every tick on an extender with `link.is_used` false, the tick
fetches no record, calls no probe, issues no counter update and no NTP update, invokes
neither the restart nor the DHCP refresh, sets `g_state.ble_status` to 0, invokes the
liveness-indicator update once, and changes nothing else of the global state, so
`is_limp_state` is unchanged. -/
theorem waiting_state (w : World) (g : cm2_state)
    (hext : w.cm2_is_extender = true) (hused : g.link.is_used = false) :
    record_fetches (cm2_connection_stability_check w g).2 = [] ∧
    probe_calls (cm2_connection_stability_check w g).2 = [] ∧
    link_counter_updates (cm2_connection_stability_check w g).2 = [] ∧
    router_counter_updates (cm2_connection_stability_check w g).2 = [] ∧
    internet_counter_updates (cm2_connection_stability_check w g).2 = [] ∧
    ntp_state_updates (cm2_connection_stability_check w g).2 = [] ∧
    restart_count (cm2_connection_stability_check w g).2 = 0 ∧
    dhcp_refreshes (cm2_connection_stability_check w g).2 = [] ∧
    (cm2_connection_stability_check w g).1.ble_status = 0 ∧
    ble_update_count (cm2_connection_stability_check w g).2 = 1 ∧
    (cm2_connection_stability_check w g).1.link.is_limp_state = g.link.is_limp_state ∧
    (cm2_connection_stability_check w g).1 = { g with ble_status := 0 } := by
  simp [cm2_connection_stability_check, hext, hused, record_fetches, probe_calls,
    link_counter_updates, router_counter_updates, internet_counter_updates,
    ntp_state_updates, restart_count, dhcp_refreshes, ble_update_count, List.count_cons]

/-- Witness of C7: an extender without active uplink, liveness indicator 7 and limp state
set at tick start. -/
theorem waiting_state_witness :
    (world_a.cm2_is_extender = true ∧ state_unused.link.is_used = false) ∧
    (cm2_connection_stability_check world_a state_unused).1.ble_status = 0 ∧
    ble_update_count (cm2_connection_stability_check world_a state_unused).2 = 1 ∧
    record_fetches (cm2_connection_stability_check world_a state_unused).2 = [] ∧
    probe_calls (cm2_connection_stability_check world_a state_unused).2 = [] ∧
    (cm2_connection_stability_check world_a state_unused).1.link.is_limp_state = true :=
  have h := waiting_state world_a state_unused rfl rfl
  ⟨⟨rfl, rfl⟩, h.2.2.2.2.2.2.2.2.1, h.2.2.2.2.2.2.2.2.2.1, h.1, h.2.1,
   h.2.2.2.2.2.2.2.2.2.2.1⟩

/-- C8, unknown interface. On every tick in which
`cm2_ovsdb_connection_get_connection_by_ifname` reports the interface as not found, the
tick issues no counter update and no NTP update, calls no probe, invokes neither the
restart nor the DHCP refresh nor the liveness-indicator update, and leaves the global
state unchanged. -/
theorem unknown_interface (w : World) (g : cm2_state)
    (hext : w.cm2_is_extender = true) (hused : g.link.is_used = true)
    (hcon : w.cm2_ovsdb_connection_get_connection_by_ifname g.link.if_name = none) :
    record_fetches (cm2_connection_stability_check w g).2 = [g.link.if_name] ∧
    link_counter_updates (cm2_connection_stability_check w g).2 = [] ∧
    router_counter_updates (cm2_connection_stability_check w g).2 = [] ∧
    internet_counter_updates (cm2_connection_stability_check w g).2 = [] ∧
    ntp_state_updates (cm2_connection_stability_check w g).2 = [] ∧
    probe_calls (cm2_connection_stability_check w g).2 = [] ∧
    restart_count (cm2_connection_stability_check w g).2 = 0 ∧
    dhcp_refreshes (cm2_connection_stability_check w g).2 = [] ∧
    ble_update_count (cm2_connection_stability_check w g).2 = 0 ∧
    (cm2_connection_stability_check w g).1 = g := by
  simp [cm2_connection_stability_check, hext, hused, hcon, record_fetches, probe_calls,
    link_counter_updates, router_counter_updates, internet_counter_updates,
    ntp_state_updates, restart_count, dhcp_refreshes, ble_update_count, List.count_cons]

/-- Witness of C8: the table has no record for `eth0`. -/
theorem unknown_interface_witness :
    (world_no_record.cm2_is_extender = true ∧ state_limp.link.is_used = true ∧
      world_no_record.cm2_ovsdb_connection_get_connection_by_ifname
        state_limp.link.if_name = none) ∧
    record_fetches (cm2_connection_stability_check world_no_record state_limp).2
      = ["eth0"] ∧
    probe_calls (cm2_connection_stability_check world_no_record state_limp).2 = [] ∧
    (cm2_connection_stability_check world_no_record state_limp).1 = state_limp :=
  have h := unknown_interface world_no_record state_limp rfl rfl rfl
  ⟨⟨rfl, rfl, rfl⟩, h.1, h.2.2.2.2.2.1, h.2.2.2.2.2.2.2.2.2⟩

/-- C9, store-update failures never block the rest of the tick. On every tick that
reaches the probe, the external calls of the tick (so the store updates with their
counters, values and NTP state, and the recovery actions) and the resulting global state
(so `is_limp_state`) are the same whatever success flags the four store-update calls
return: replacing the flags of the world by arbitrary ones changes none of them. -/
theorem store_update_failures_do_not_block (w : World) (g : cm2_state)
    (con : schema_Connection_Manager_Uplink)
    (hext : w.cm2_is_extender = true) (hused : g.link.is_used = true)
    (hcon : w.cm2_ovsdb_connection_get_connection_by_ifname g.link.if_name = some con)
    (fl fr fi : String → Int → Bool) (fn : String → Bool → Bool) :
    external_calls (cm2_connection_stability_check (with_update_results w fl fr fi fn) g).2
      = external_calls (cm2_connection_stability_check w g).2 ∧
    link_counter_updates
        (cm2_connection_stability_check (with_update_results w fl fr fi fn) g).2
      = link_counter_updates (cm2_connection_stability_check w g).2 ∧
    router_counter_updates
        (cm2_connection_stability_check (with_update_results w fl fr fi fn) g).2
      = router_counter_updates (cm2_connection_stability_check w g).2 ∧
    internet_counter_updates
        (cm2_connection_stability_check (with_update_results w fl fr fi fn) g).2
      = internet_counter_updates (cm2_connection_stability_check w g).2 ∧
    ntp_state_updates
        (cm2_connection_stability_check (with_update_results w fl fr fi fn) g).2
      = ntp_state_updates (cm2_connection_stability_check w g).2 ∧
    restart_count (cm2_connection_stability_check (with_update_results w fl fr fi fn) g).2
      = restart_count (cm2_connection_stability_check w g).2 ∧
    dhcp_refreshes (cm2_connection_stability_check (with_update_results w fl fr fi fn) g).2
      = dhcp_refreshes (cm2_connection_stability_check w g).2 ∧
    (cm2_connection_stability_check (with_update_results w fl fr fi fn) g).1
      = (cm2_connection_stability_check w g).1 := by
  have hext2 : (with_update_results w fl fr fi fn).cm2_is_extender = true := hext
  have hcon2 : (with_update_results w fl fr fi fn).cm2_ovsdb_connection_get_connection_by_ifname
      g.link.if_name = some con := hcon
  have hst : (cm2_connection_stability_check (with_update_results w fl fr fi fn) g).1
      = (cm2_connection_stability_check w g).1 := by
    rw [state_at_probe _ g con hext2 hused hcon2, state_at_probe w g con hext hused hcon]
    rfl
  have hev : external_calls
      (cm2_connection_stability_check (with_update_results w fl fr fi fn) g).2
      = external_calls (cm2_connection_stability_check w g).2 := by
    rw [external_calls_at_probe _ g con hext2 hused hcon2,
      external_calls_at_probe w g con hext hused hcon, hst]
    rfl
  refine ⟨hev, ?_, ?_, ?_, ?_, ?_, ?_, hst⟩
  · unfold link_counter_updates
    rw [← filterMap_external_calls _ (fun _ _ _ => rfl), hev,
      filterMap_external_calls _ (fun _ _ _ => rfl)]
  · unfold router_counter_updates
    rw [← filterMap_external_calls _ (fun _ _ _ => rfl), hev,
      filterMap_external_calls _ (fun _ _ _ => rfl)]
  · unfold internet_counter_updates
    rw [← filterMap_external_calls _ (fun _ _ _ => rfl), hev,
      filterMap_external_calls _ (fun _ _ _ => rfl)]
  · unfold ntp_state_updates
    rw [← filterMap_external_calls _ (fun _ _ _ => rfl), hev,
      filterMap_external_calls _ (fun _ _ _ => rfl)]
  · rw [← restart_count_external_calls, hev, restart_count_external_calls]
  · unfold dhcp_refreshes
    rw [← filterMap_external_calls _ (fun _ _ _ => rfl), hev,
      filterMap_external_calls _ (fun _ _ _ => rfl)]

/-- Witness of C9: every store update fails instead of succeeding; the traces differ (in
the warnings logged), the external calls and the resulting state do not. -/
theorem store_update_failures_do_not_block_witness :
    (world_a.cm2_is_extender = true ∧ state_limp.link.is_used = true ∧
      world_a.cm2_ovsdb_connection_get_connection_by_ifname state_limp.link.if_name
        = some con_a) ∧
    (cm2_connection_stability_check
        (with_update_results world_a (fun _ _ => false) (fun _ _ => false)
          (fun _ _ => false) (fun _ _ => false)) state_limp).2
      ≠ (cm2_connection_stability_check world_a state_limp).2 ∧
    external_calls (cm2_connection_stability_check
        (with_update_results world_a (fun _ _ => false) (fun _ _ => false)
          (fun _ _ => false) (fun _ _ => false)) state_limp).2
      = external_calls (cm2_connection_stability_check world_a state_limp).2 ∧
    (cm2_connection_stability_check
        (with_update_results world_a (fun _ _ => false) (fun _ _ => false)
          (fun _ _ => false) (fun _ _ => false)) state_limp).1
      = (cm2_connection_stability_check world_a state_limp).1 :=
  have h := store_update_failures_do_not_block world_a state_limp con_a rfl rfl rfl
    (fun _ _ => false) (fun _ _ => false) (fun _ _ => false) (fun _ _ => false)
  ⟨⟨rfl, rfl, rfl⟩, by decide, h.1, h.2.2.2.2.2.2.2⟩

/-- C10 as stated fails: in the world `world_a` the probe returns not-ok, and the tick
still issues the updates of the link, router and Internet counters; so it is not true
that every tick whose probe call returns not-ok issues no counter update. -/
theorem probe_failure_skips_updates_counterexample :
    ((probe_answer world_a state_limp).1 = false ∧
      link_counter_updates (cm2_connection_stability_check world_a state_limp).2
        = [("eth0", 4)] ∧
      router_counter_updates (cm2_connection_stability_check world_a state_limp).2
        = [("eth0", 0)] ∧
      internet_counter_updates (cm2_connection_stability_check world_a state_limp).2
        = [("eth0", 6)]) ∧
    ¬ (∀ (w : World) (g : cm2_state) (con : schema_Connection_Manager_Uplink),
        w.cm2_is_extender = true → g.link.is_used = true →
        w.cm2_ovsdb_connection_get_connection_by_ifname g.link.if_name = some con →
        (probe_answer w g).1 = false →
        link_counter_updates (cm2_connection_stability_check w g).2 = [] ∧
        router_counter_updates (cm2_connection_stability_check w g).2 = [] ∧
        internet_counter_updates (cm2_connection_stability_check w g).2 = []) :=
  ⟨by decide, fun h => absurd (h world_a state_limp con_a rfl rfl rfl rfl).1 (by decide)⟩

/-- C10 amended: the flag returned by `target_device_connectivity_check` is only
logged. On every tick that reaches the probe and in which the probe returns not-ok, the
counter updates are not skipped: exactly one update of the link counter and one of the
router counter are issued, and one of the Internet counter when the Internet check is in
the mask, each with 0 for a check reported as passed and the incremented stored counter
for a check reported as failed; the external calls and the resulting state are those of
the tick in which the probe returns ok with the same per-check states. -/
theorem probe_flag_only_logged (w : World) (g : cm2_state)
    (con : schema_Connection_Manager_Uplink)
    (hext : w.cm2_is_extender = true) (hused : g.link.is_used = true)
    (hcon : w.cm2_ovsdb_connection_get_connection_by_ifname g.link.if_name = some con)
    (_hret : (probe_answer w g).1 = false) :
    link_counter_updates (cm2_connection_stability_check w g).2
      = [(g.link.if_name,
          if (probe_answer w g).2.link_state = true then 0
          else int_add con.unreachable_link_counter 1)] ∧
    router_counter_updates (cm2_connection_stability_check w g).2
      = [(g.link.if_name,
          if (probe_answer w g).2.router_state = true then 0
          else int_add con.unreachable_router_counter 1)] ∧
    (check_opts g &&& INTERNET_CHECK ≠ 0 →
      internet_counter_updates (cm2_connection_stability_check w g).2
        = [(g.link.if_name,
            if (probe_answer w g).2.internet_state = true then 0
            else int_add con.unreachable_internet_counter 1)]) ∧
    external_calls (cm2_connection_stability_check w g).2
      = external_calls (cm2_connection_stability_check (with_probe_ret w true) g).2 ∧
    (cm2_connection_stability_check w g).1
      = (cm2_connection_stability_check (with_probe_ret w true) g).1 := by
  have hext2 : (with_probe_ret w true).cm2_is_extender = true := hext
  have hcon2 : (with_probe_ret w true).cm2_ovsdb_connection_get_connection_by_ifname
      g.link.if_name = some con := hcon
  have hst : (cm2_connection_stability_check w g).1
      = (cm2_connection_stability_check (with_probe_ret w true) g).1 := by
    rw [state_at_probe _ g con hext2 hused hcon2, state_at_probe w g con hext hused hcon]
    rfl
  refine ⟨link_updates_at_probe w g con hext hused hcon,
    router_updates_at_probe w g con hext hused hcon, ?_, ?_, hst⟩
  · intro hreq
    rw [internet_updates_at_probe w g con hext hused hcon,
      if_pos ((check_opts_internet g).1 hreq)]
  · rw [external_calls_at_probe _ g con hext2 hused hcon2,
      external_calls_at_probe w g con hext hused hcon, hst]
    rfl

/-- Witness of C10 amended: the probe of `world_a` returns not-ok; the three counters are
updated all the same. -/
theorem probe_flag_only_logged_witness :
    (world_a.cm2_is_extender = true ∧ state_limp.link.is_used = true ∧
      world_a.cm2_ovsdb_connection_get_connection_by_ifname state_limp.link.if_name
        = some con_a ∧
      (probe_answer world_a state_limp).1 = false) ∧
    link_counter_updates (cm2_connection_stability_check world_a state_limp).2
      = [("eth0", 4)] ∧
    router_counter_updates (cm2_connection_stability_check world_a state_limp).2
      = [("eth0", 0)] ∧
    internet_counter_updates (cm2_connection_stability_check world_a state_limp).2
      = [("eth0", 6)] ∧
    external_calls (cm2_connection_stability_check world_a state_limp).2
      = external_calls
          (cm2_connection_stability_check (with_probe_ret world_a true) state_limp).2 :=
  have h := probe_flag_only_logged world_a state_limp con_a rfl rfl rfl rfl
  ⟨⟨rfl, rfl, rfl, rfl⟩, h.1, h.2.1, h.2.2.1 (by decide), h.2.2.2.1⟩

/-- C11, NTP handling. Every tick that reaches the probe issues exactly one NTP-state
update, for `if_name`, carrying the `ntp_state` reported by the probe; and the probe's
`ntp_state` influences nothing else: the tick in which the probe reports any other
`ntp_state` `b`, all else equal, writes the same link, router and Internet counter
values, invokes the same recovery actions and ends in the same global state (so the same
`is_limp_state`). -/
theorem ntp_handling (w : World) (g : cm2_state)
    (con : schema_Connection_Manager_Uplink)
    (hext : w.cm2_is_extender = true) (hused : g.link.is_used = true)
    (hcon : w.cm2_ovsdb_connection_get_connection_by_ifname g.link.if_name = some con) :
    ntp_state_updates (cm2_connection_stability_check w g).2
      = [(g.link.if_name, (probe_answer w g).2.ntp_state)] ∧
    (∀ b : Bool,
      ntp_state_updates (cm2_connection_stability_check
          (with_probe_cstate w (fun c => { c with ntp_state := b })) g).2
        = [(g.link.if_name, b)] ∧
      link_counter_updates (cm2_connection_stability_check
          (with_probe_cstate w (fun c => { c with ntp_state := b })) g).2
        = link_counter_updates (cm2_connection_stability_check w g).2 ∧
      router_counter_updates (cm2_connection_stability_check
          (with_probe_cstate w (fun c => { c with ntp_state := b })) g).2
        = router_counter_updates (cm2_connection_stability_check w g).2 ∧
      internet_counter_updates (cm2_connection_stability_check
          (with_probe_cstate w (fun c => { c with ntp_state := b })) g).2
        = internet_counter_updates (cm2_connection_stability_check w g).2 ∧
      restart_count (cm2_connection_stability_check
          (with_probe_cstate w (fun c => { c with ntp_state := b })) g).2
        = restart_count (cm2_connection_stability_check w g).2 ∧
      dhcp_refreshes (cm2_connection_stability_check
          (with_probe_cstate w (fun c => { c with ntp_state := b })) g).2
        = dhcp_refreshes (cm2_connection_stability_check w g).2 ∧
      (cm2_connection_stability_check
          (with_probe_cstate w (fun c => { c with ntp_state := b })) g).1
        = (cm2_connection_stability_check w g).1) := by
  refine ⟨ntp_updates_at_probe w g con hext hused hcon, ?_⟩
  intro b
  have hext2 : (with_probe_cstate w (fun c => { c with ntp_state := b })).cm2_is_extender
      = true := hext
  have hcon2 : (with_probe_cstate w
      (fun c => { c with ntp_state := b })).cm2_ovsdb_connection_get_connection_by_ifname
      g.link.if_name = some con := hcon
  have hst : (cm2_connection_stability_check
      (with_probe_cstate w (fun c => { c with ntp_state := b })) g).1
      = (cm2_connection_stability_check w g).1 := by
    rw [state_at_probe _ g con hext2 hused hcon2, state_at_probe w g con hext hused hcon]
    rfl
  refine ⟨?_, ?_, ?_, ?_, ?_, ?_, hst⟩
  · rw [ntp_updates_at_probe _ g con hext2 hused hcon2]; rfl
  · rw [link_updates_at_probe _ g con hext2 hused hcon2,
      link_updates_at_probe w g con hext hused hcon]; rfl
  · rw [router_updates_at_probe _ g con hext2 hused hcon2,
      router_updates_at_probe w g con hext hused hcon]; rfl
  · rw [internet_updates_at_probe _ g con hext2 hused hcon2,
      internet_updates_at_probe w g con hext hused hcon]; rfl
  · rw [restart_count_at_probe _ g con hext2 hused hcon2,
      restart_count_at_probe w g con hext hused hcon, hst]
  · rw [dhcp_refreshes_at_probe _ g con hext2 hused hcon2,
      dhcp_refreshes_at_probe w g con hext hused hcon]; rfl

/-- Witness of C11: the probe of `world_a` reports NTP in sync; the tick writes that
state once, and the tick in which the probe reports NTP out of sync differs in nothing
but the NTP state written. -/
theorem ntp_handling_witness :
    (world_a.cm2_is_extender = true ∧ state_limp.link.is_used = true ∧
      world_a.cm2_ovsdb_connection_get_connection_by_ifname state_limp.link.if_name
        = some con_a) ∧
    ntp_state_updates (cm2_connection_stability_check world_a state_limp).2
      = [("eth0", true)] ∧
    ntp_state_updates (cm2_connection_stability_check
        (with_probe_cstate world_a (fun c => { c with ntp_state := false })) state_limp).2
      = [("eth0", false)] ∧
    restart_count (cm2_connection_stability_check
        (with_probe_cstate world_a (fun c => { c with ntp_state := false })) state_limp).2
      = restart_count (cm2_connection_stability_check world_a state_limp).2 ∧
    (cm2_connection_stability_check
        (with_probe_cstate world_a (fun c => { c with ntp_state := false })) state_limp).1
      = (cm2_connection_stability_check world_a state_limp).1 :=
  have h := ntp_handling world_a state_limp con_a rfl rfl rfl
  ⟨⟨rfl, rfl, rfl⟩, h.1, (h.2 false).1, (h.2 false).2.2.2.2.1, (h.2 false).2.2.2.2.2.2⟩

/-- C12, gating. `cm2_stability_cb` is a no-op whenever `g_state.run_stability` is false
or the device is not in the extender role: no record is fetched, no probe is made, no
store update is issued, neither recovery action and no liveness action (indicator update
or watchdog ping) is invoked, and the global state is unchanged. The only external call
that can occur is the role query `cm2_is_extender` itself. -/
theorem stability_cb_gating (w : World) (g : cm2_state)
    (hgate : g.run_stability = false ∨ w.cm2_is_extender = false) :
    record_fetches (cm2_stability_cb w g).2 = [] ∧
    probe_calls (cm2_stability_cb w g).2 = [] ∧
    link_counter_updates (cm2_stability_cb w g).2 = [] ∧
    router_counter_updates (cm2_stability_cb w g).2 = [] ∧
    internet_counter_updates (cm2_stability_cb w g).2 = [] ∧
    ntp_state_updates (cm2_stability_cb w g).2 = [] ∧
    restart_count (cm2_stability_cb w g).2 = 0 ∧
    dhcp_refreshes (cm2_stability_cb w g).2 = [] ∧
    ble_update_count (cm2_stability_cb w g).2 = 0 ∧
    wdt_ping_count (cm2_stability_cb w g).2 = 0 ∧
    (∀ e ∈ (cm2_stability_cb w g).2, e = Event.cm2_is_extender) ∧
    (cm2_stability_cb w g).1 = g := by
  cases hrun : g.run_stability
  · simp [cm2_stability_cb, hrun, record_fetches, probe_calls, link_counter_updates,
      router_counter_updates, internet_counter_updates, ntp_state_updates, restart_count,
      dhcp_refreshes, ble_update_count, wdt_ping_count]
  · have hext : w.cm2_is_extender = false := by
      rcases hgate with h | h
      · rw [hrun] at h; cases h
      · exact h
    simp [cm2_stability_cb, cm2_connection_stability_check, hrun, hext, record_fetches,
      probe_calls, link_counter_updates, router_counter_updates, internet_counter_updates,
      ntp_state_updates, restart_count, dhcp_refreshes, ble_update_count, wdt_ping_count,
      List.count_cons]

/-- Witness of C12: a device that is not an extender, with `run_stability` set; and an
extender with `run_stability` clear. -/
theorem stability_cb_gating_witness :
    (state_limp.run_stability = true ∧ world_not_extender.cm2_is_extender = false) ∧
    cm2_stability_cb world_not_extender state_limp
      = (state_limp, [Event.cm2_is_extender]) ∧
    (cm2_stability_cb world_not_extender state_limp).1 = state_limp ∧
    (cm2_stability_cb world_a { state_limp with run_stability := false }).1
      = { state_limp with run_stability := false } ∧
    probe_calls
      (cm2_stability_cb world_a { state_limp with run_stability := false }).2 = [] :=
  ⟨⟨rfl, rfl⟩, by decide,
   (stability_cb_gating world_not_extender state_limp (Or.inr rfl)).2.2.2.2.2.2.2.2.2.2.2,
   (stability_cb_gating world_a { state_limp with run_stability := false }
      (Or.inl rfl)).2.2.2.2.2.2.2.2.2.2.2,
   (stability_cb_gating world_a { state_limp with run_stability := false }
      (Or.inl rfl)).2.1⟩

/-- C13 as stated fails: with `is_limp_state` false before and after the classification
(bridge) and a stored router counter of 4 the comparison is `4 + 1 > 5`, which is false,
and `target_device_restart_managers` is not invoked. -/
theorem router_restart_at_four_counterexample :
    ((world_b.cm2_is_extender = true ∧ state_clear.link.is_used = true ∧
        world_b.cm2_ovsdb_connection_get_connection_by_ifname state_clear.link.if_name
          = some con_b) ∧
      state_clear.link.is_limp_state = false ∧
      (cm2_connection_stability_check world_b state_clear).1.link.is_limp_state = false ∧
      con_b.unreachable_router_counter = 4 ∧
      restart_count (cm2_connection_stability_check world_b state_clear).2 = 0) ∧
    ¬ (∀ (w : World) (g : cm2_state) (con : schema_Connection_Manager_Uplink),
        w.cm2_is_extender = true → g.link.is_used = true →
        w.cm2_ovsdb_connection_get_connection_by_ifname g.link.if_name = some con →
        g.link.is_limp_state = false →
        (cm2_connection_stability_check w g).1.link.is_limp_state = false →
        con.unreachable_router_counter = 4 →
        0 < restart_count (cm2_connection_stability_check w g).2) :=
  ⟨by decide,
   fun h => absurd (h world_b state_clear con_b rfl rfl rfl rfl (by decide) rfl)
     (by decide)⟩

/-- C13 amended, router-restart boundary. On a tick that reaches the probe with
`is_limp_state` false (after the classification of the tick) the restart is not invoked
when the stored router counter is 4, since `4 + 1 > 5` is false, and is invoked, once,
when the stored router counter is 5, since `5 + 1 > 5`. -/
theorem router_restart_boundary (w : World) (g : cm2_state)
    (con : schema_Connection_Manager_Uplink)
    (hext : w.cm2_is_extender = true) (hused : g.link.is_used = true)
    (hcon : w.cm2_ovsdb_connection_get_connection_by_ifname g.link.if_name = some con)
    (hlimp : (cm2_connection_stability_check w g).1.link.is_limp_state = false) :
    (con.unreachable_router_counter = 4 →
      restart_count (cm2_connection_stability_check w g).2 = 0) ∧
    (con.unreachable_router_counter = 5 →
      restart_count (cm2_connection_stability_check w g).2 = 1) := by
  rw [restart_count_at_probe w g con hext hused hcon, hlimp]
  constructor
  · intro h; rw [h]; decide
  · intro h; rw [h]; decide

/-- Witness of C13 amended: stored router counter 4 in `world_b`, 5 in `world_a` with the
same state, limp state clear and the link classified as bridge. -/
theorem router_restart_boundary_witness :
    ((world_b.cm2_is_extender = true ∧ state_clear.link.is_used = true ∧
        world_b.cm2_ovsdb_connection_get_connection_by_ifname state_clear.link.if_name
          = some con_b) ∧
      (cm2_connection_stability_check world_b state_clear).1.link.is_limp_state = false) ∧
    restart_count (cm2_connection_stability_check world_b state_clear).2 = 0 ∧
    restart_count (cm2_connection_stability_check world_a state_clear).2 = 1 :=
  ⟨⟨⟨rfl, rfl, rfl⟩, by decide⟩,
   (router_restart_boundary world_b state_clear con_b rfl rfl rfl (by decide)).1 rfl,
   (router_restart_boundary world_a state_clear con_a rfl rfl rfl (by decide)).2 rfl⟩

/-- C14, watchdog pinger. For every global state, one call of `cm2_wdt_cb` invokes
`target_device_wdt_ping` exactly once, makes no other external call and no log call, and
leaves the global state unchanged; the period with which `cm2_wdt_init` starts its timer,
`CM2_WDT_INTERVAL`, equals the period of the stability timer,
`CM2_STABILITY_INTERVAL`: both are 10. -/
theorem watchdog_pinger (g : cm2_state) :
    (cm2_wdt_cb g).2 = [Event.target_device_wdt_ping] ∧
    wdt_ping_count (cm2_wdt_cb g).2 = 1 ∧
    external_calls (cm2_wdt_cb g).2 = [Event.target_device_wdt_ping] ∧
    (cm2_wdt_cb g).1 = g ∧
    CM2_WDT_INTERVAL = CM2_STABILITY_INTERVAL ∧
    CM2_WDT_INTERVAL = 10 ∧ CM2_STABILITY_INTERVAL = 10 ∧
    cm2_wdt_init.1.cb = timer_callback.cm2_wdt_cb ∧
    cm2_wdt_init.1.period = 10 ∧ cm2_wdt_init.1.after = 10 ∧
    cm2_stability_init.1.cb = timer_callback.cm2_stability_cb ∧
    cm2_stability_init.1.period = 10 ∧ cm2_stability_init.1.after = 10 ∧
    cm2_wdt_init.1.period = cm2_stability_init.1.period := by
  refine ⟨rfl, ?_, ?_, rfl, rfl, rfl, rfl, rfl, rfl, rfl, rfl, rfl, rfl, rfl⟩
  · simp [cm2_wdt_cb, wdt_ping_count]
  · simp [cm2_wdt_cb, external_calls]

/-- C15, the restart decision is independent of the router result of the tick. On every
tick that reaches the probe, the tick in which the probe reports any other `router_state`
`b`, all else equal, invokes the restart equally often and ends in the same global state
(so the same `is_limp_state`). In particular, when the router check passes,
`is_limp_state` is false after the classification and the stored router counter is at
least 5 (and, a C `int`, less than `INT_MAX`), the value 0 is written to the router
counter and the restart is invoked all the same. -/
theorem restart_independent_of_router_result (w : World) (g : cm2_state)
    (con : schema_Connection_Manager_Uplink)
    (hext : w.cm2_is_extender = true) (hused : g.link.is_used = true)
    (hcon : w.cm2_ovsdb_connection_get_connection_by_ifname g.link.if_name = some con) :
    (∀ b : Bool,
      restart_count (cm2_connection_stability_check
          (with_probe_cstate w (fun c => { c with router_state := b })) g).2
        = restart_count (cm2_connection_stability_check w g).2 ∧
      (cm2_connection_stability_check
          (with_probe_cstate w (fun c => { c with router_state := b })) g).1
        = (cm2_connection_stability_check w g).1) ∧
    ((probe_answer w g).2.router_state = true →
      (cm2_connection_stability_check w g).1.link.is_limp_state = false →
      5 ≤ con.unreachable_router_counter → con.unreachable_router_counter < INT_MAX →
      router_counter_updates (cm2_connection_stability_check w g).2
          = [(g.link.if_name, 0)] ∧
      restart_count (cm2_connection_stability_check w g).2 = 1) := by
  constructor
  · intro b
    have hext2 : (with_probe_cstate w
        (fun c => { c with router_state := b })).cm2_is_extender = true := hext
    have hcon2 : (with_probe_cstate w
        (fun c => { c with router_state := b })).cm2_ovsdb_connection_get_connection_by_ifname
        g.link.if_name = some con := hcon
    have hst : (cm2_connection_stability_check
        (with_probe_cstate w (fun c => { c with router_state := b })) g).1
        = (cm2_connection_stability_check w g).1 := by
      rw [state_at_probe _ g con hext2 hused hcon2, state_at_probe w g con hext hused hcon]
      rfl
    refine ⟨?_, hst⟩
    rw [restart_count_at_probe _ g con hext2 hused hcon2,
      restart_count_at_probe w g con hext hused hcon, hst]
  · intro hpass hlimp h5 hmax
    have hdef : int_incr_defined con.unreachable_router_counter := by
      unfold int_incr_defined INT_MIN
      exact ⟨by omega, hmax⟩
    rw [router_updates_at_probe w g con hext hused hcon,
      restart_count_at_probe w g con hext hused hcon, hlimp, hpass,
      int_add_one_of_defined _ hdef]
    unfold CM2_STABILITY_THRESHOLD
    have : con.unreachable_router_counter + 1 > 5 := by omega
    simp [this]

/-- Witness of C15: in `world_a` the router check passes at stored router counter 5 and
the link is a bridge: the tick writes 0 to the router counter and still invokes the
restart, as does the tick in which the router check fails. -/
theorem restart_independent_of_router_result_witness :
    (world_a.cm2_is_extender = true ∧ state_limp.link.is_used = true ∧
      world_a.cm2_ovsdb_connection_get_connection_by_ifname state_limp.link.if_name
        = some con_a) ∧
    ((probe_answer world_a state_limp).2.router_state = true ∧
      (cm2_connection_stability_check world_a state_limp).1.link.is_limp_state = false ∧
      5 ≤ con_a.unreachable_router_counter ∧ con_a.unreachable_router_counter < INT_MAX) ∧
    router_counter_updates (cm2_connection_stability_check world_a state_limp).2
      = [("eth0", 0)] ∧
    restart_count (cm2_connection_stability_check world_a state_limp).2 = 1 ∧
    restart_count (cm2_connection_stability_check
        (with_probe_cstate world_a (fun c => { c with router_state := false }))
        state_limp).2
      = restart_count (cm2_connection_stability_check world_a state_limp).2 :=
  have h := restart_independent_of_router_result world_a state_limp con_a rfl rfl rfl
  have h2 := h.2 rfl (by decide) (by decide) (by decide)
  ⟨⟨rfl, rfl, rfl⟩, ⟨rfl, by decide, by decide, by decide⟩, h2.1, h2.2, (h.1 false).1⟩

/-- C18, the restart decision uses the limp flag as updated earlier in the same tick. On
every tick that reaches the probe, begins with `is_limp_state` true, is classified
Ethernet bridge and has a stored router counter of at least 5 (a C `int` less than
`INT_MAX`), `is_limp_state` is cleared and the restart is invoked in that same tick; and
on every tick that reaches the probe and is classified Ethernet router the restart is not
invoked, whatever the stored router counter and whatever `is_limp_state` was at tick
start. -/
theorem restart_uses_updated_limp_flag (w : World) (g : cm2_state)
    (con : schema_Connection_Manager_Uplink)
    (hext : w.cm2_is_extender = true) (hused : g.link.is_used = true)
    (hcon : w.cm2_ovsdb_connection_get_connection_by_ifname g.link.if_name = some con) :
    (g.link.is_limp_state = true →
      (cm2_util_get_link_type w g).1 = cm2_main_link_type.CM2_LINK_ETH_BRIDGE →
      5 ≤ con.unreachable_router_counter → con.unreachable_router_counter < INT_MAX →
      (cm2_connection_stability_check w g).1.link.is_limp_state = false ∧
      restart_count (cm2_connection_stability_check w g).2 = 1) ∧
    ((cm2_util_get_link_type w g).1 = cm2_main_link_type.CM2_LINK_ETH_ROUTER →
      (cm2_connection_stability_check w g).1.link.is_limp_state = true ∧
      restart_count (cm2_connection_stability_check w g).2 = 0) := by
  have hs := state_at_probe w g con hext hused hcon
  have hc := restart_count_at_probe w g con hext hused hcon
  have hsp := (limp_state_update_spec (cm2_util_get_link_type w g).1 g).1
  rw [hs] at hc
  rw [hs, hc, hsp]
  constructor
  · intro _ hb h5 hmax
    have hdef : int_incr_defined con.unreachable_router_counter := by
      unfold int_incr_defined INT_MIN
      exact ⟨by omega, hmax⟩
    rw [hb, int_add_one_of_defined _ hdef]
    unfold CM2_STABILITY_THRESHOLD
    have : con.unreachable_router_counter + 1 > 5 := by omega
    simp [this]
  · intro hr
    rw [hr]
    simp

/-- Witness of C18: limp state set at tick start and stored router counter 5; with the
port `patch-w2h` present (bridge) the flag is cleared and the restart is invoked, with the
port absent (router) the flag stays set and the restart is not invoked. -/
theorem restart_uses_updated_limp_flag_witness :
    (world_a.cm2_is_extender = true ∧ state_limp.link.is_used = true ∧
      world_a.cm2_ovsdb_connection_get_connection_by_ifname state_limp.link.if_name
        = some con_a) ∧
    (state_limp.link.is_limp_state = true ∧
      (cm2_util_get_link_type world_a state_limp).1
        = cm2_main_link_type.CM2_LINK_ETH_BRIDGE ∧
      (cm2_util_get_link_type world_router state_limp).1
        = cm2_main_link_type.CM2_LINK_ETH_ROUTER) ∧
    ((cm2_connection_stability_check world_a state_limp).1.link.is_limp_state = false ∧
      restart_count (cm2_connection_stability_check world_a state_limp).2 = 1) ∧
    ((cm2_connection_stability_check world_router state_limp).1.link.is_limp_state = true ∧
      restart_count (cm2_connection_stability_check world_router state_limp).2 = 0) :=
  ⟨⟨rfl, rfl, rfl⟩, ⟨rfl, by decide, by decide⟩,
   (restart_uses_updated_limp_flag world_a state_limp con_a rfl rfl rfl).1
      rfl (by decide) (by decide) (by decide),
   (restart_uses_updated_limp_flag world_router state_limp con_a rfl rfl rfl).2
      (by decide)⟩

/-- C19, frame of a tick. For every input, `cm2_connection_stability_check` leaves
`link.is_used`, `link.if_name`, `link.if_type`, `connected` and `run_stability`
unchanged; `link.is_limp_state` changes only on a tick that reaches the probe (extender,
link in use, record found) and `ble_status` changes only in the waiting branch (extender,
`is_used` false). -/
theorem tick_frame (w : World) (g : cm2_state) :
    (cm2_connection_stability_check w g).1.link.is_used = g.link.is_used ∧
    (cm2_connection_stability_check w g).1.link.if_name = g.link.if_name ∧
    (cm2_connection_stability_check w g).1.link.if_type = g.link.if_type ∧
    (cm2_connection_stability_check w g).1.connected = g.connected ∧
    (cm2_connection_stability_check w g).1.run_stability = g.run_stability ∧
    ((cm2_connection_stability_check w g).1.link.is_limp_state ≠ g.link.is_limp_state →
      w.cm2_is_extender = true ∧ g.link.is_used = true ∧
      (w.cm2_ovsdb_connection_get_connection_by_ifname g.link.if_name).isSome = true) ∧
    ((cm2_connection_stability_check w g).1.ble_status ≠ g.ble_status →
      w.cm2_is_extender = true ∧ g.link.is_used = false) := by
  have hf := stability_check_frame w g
  refine ⟨hf.1, hf.2.1, hf.2.2.1, hf.2.2.2.1, hf.2.2.2.2, ?_, ?_⟩
  · cases hext : w.cm2_is_extender
    · simp [cm2_connection_stability_check, hext]
    · cases hused : g.link.is_used
      · simp [cm2_connection_stability_check, hext, hused]
      · cases hcon : w.cm2_ovsdb_connection_get_connection_by_ifname g.link.if_name with
        | none => simp [cm2_connection_stability_check, hext, hused, hcon]
        | some con => simp
  · cases hext : w.cm2_is_extender
    · simp [cm2_connection_stability_check, hext]
    · cases hused : g.link.is_used
      · simp
      · cases hcon : w.cm2_ovsdb_connection_get_connection_by_ifname g.link.if_name with
        | none => simp [cm2_connection_stability_check, hext, hused, hcon]
        | some con =>
          rw [state_at_probe w g con hext hused hcon]
          have h := limp_state_update_frame (cm2_util_get_link_type w g).1 g
          intro hne
          exact absurd h.2.2.2.2.2 hne

/-- Witness of C19: both changes occur; a tick at the probe clears `is_limp_state` and
keeps `ble_status`, a tick in the waiting branch clears `ble_status` and keeps
`is_limp_state`. -/
theorem tick_frame_witness :
    ((cm2_connection_stability_check world_a state_limp).1.link.is_limp_state
        ≠ state_limp.link.is_limp_state ∧
      (cm2_connection_stability_check world_a state_limp).1.ble_status
        = state_limp.ble_status) ∧
    ((cm2_connection_stability_check world_a state_unused).1.ble_status
        ≠ state_unused.ble_status ∧
      (cm2_connection_stability_check world_a state_unused).1.link.is_limp_state
        = state_unused.link.is_limp_state) ∧
    (world_a.cm2_is_extender = true ∧ state_limp.link.is_used = true ∧
      (world_a.cm2_ovsdb_connection_get_connection_by_ifname
        state_limp.link.if_name).isSome = true) ∧
    (world_a.cm2_is_extender = true ∧ state_unused.link.is_used = false) :=
  ⟨by decide, by decide,
   (tick_frame world_a state_limp).2.2.2.2.2.1 (by decide),
   (tick_frame world_a state_unused).2.2.2.2.2.2 (by decide)⟩

/-- C20, target of the DHCP refresh. Whenever a tick invokes `cm2_ovsdb_refresh_dhcp`,
the argument is the fixed name `BR_WAN_NAME`, whatever the active interface name
`if_name` is; every update of the link, router and Internet counter and every NTP update
of the tick is keyed by `if_name`. -/
theorem dhcp_refresh_target (w : World) (g : cm2_state) :
    (∀ n ∈ dhcp_refreshes (cm2_connection_stability_check w g).2, n = BR_WAN_NAME) ∧
    (∀ p ∈ link_counter_updates (cm2_connection_stability_check w g).2,
      p.1 = g.link.if_name) ∧
    (∀ p ∈ router_counter_updates (cm2_connection_stability_check w g).2,
      p.1 = g.link.if_name) ∧
    (∀ p ∈ internet_counter_updates (cm2_connection_stability_check w g).2,
      p.1 = g.link.if_name) ∧
    (∀ p ∈ ntp_state_updates (cm2_connection_stability_check w g).2,
      p.1 = g.link.if_name) := by
  cases hext : w.cm2_is_extender
  · simp [cm2_connection_stability_check, hext, dhcp_refreshes, link_counter_updates,
      router_counter_updates, internet_counter_updates, ntp_state_updates]
  · cases hused : g.link.is_used
    · simp [cm2_connection_stability_check, hext, hused, dhcp_refreshes,
        link_counter_updates, router_counter_updates, internet_counter_updates,
        ntp_state_updates]
    · cases hcon : w.cm2_ovsdb_connection_get_connection_by_ifname g.link.if_name with
      | none =>
        simp [cm2_connection_stability_check, hext, hused, hcon, dhcp_refreshes,
          link_counter_updates, router_counter_updates, internet_counter_updates,
          ntp_state_updates]
      | some con =>
        rw [dhcp_refreshes_at_probe w g con hext hused hcon,
          link_updates_at_probe w g con hext hused hcon,
          router_updates_at_probe w g con hext hused hcon,
          internet_updates_at_probe w g con hext hused hcon,
          ntp_updates_at_probe w g con hext hused hcon]
        refine ⟨?_, ?_, ?_, ?_, ?_⟩
        · intro n hn
          split_ifs at hn
          · simpa using hn
          · simp at hn
        · intro p hp; simp at hp; rw [hp]
        · intro p hp; simp at hp; rw [hp]
        · intro p hp
          by_cases hc : g.connected = false
          · rw [if_pos hc] at hp; simp at hp; rw [hp]
          · rw [if_neg hc] at hp; simp at hp
        · intro p hp; simp at hp; rw [hp]

/-- Witness of C20: the active interface is `eth0`; the DHCP refresh of the tick is for
`br-wan`, the four store updates are for `eth0`. -/
theorem dhcp_refresh_target_witness :
    state_limp.link.if_name ≠ BR_WAN_NAME ∧
    dhcp_refreshes (cm2_connection_stability_check world_a state_limp).2 = [BR_WAN_NAME] ∧
    (link_counter_updates (cm2_connection_stability_check world_a state_limp).2).map
        Prod.fst = ["eth0"] ∧
    (∀ n ∈ dhcp_refreshes (cm2_connection_stability_check world_a state_limp).2,
      n = BR_WAN_NAME) ∧
    (∀ p ∈ ntp_state_updates (cm2_connection_stability_check world_a state_limp).2,
      p.1 = state_limp.link.if_name) :=
  ⟨by decide, by decide, by decide,
   (dhcp_refresh_target world_a state_limp).1,
   (dhcp_refresh_target world_a state_limp).2.2.2.2⟩

/-- C16, consecutive Internet failures. In a store in which every update succeeds and
every tick fetches what the tick before wrote (`run_ticks`), with an initial Internet
counter of 0 and `g_state.connected` false, after `n` consecutive ticks that reach the
probe and report the Internet check as failed (`n` at most `INT_MAX`) the stored Internet
counter is `n`, the DHCP refresh has been invoked `n / 6` times in total, namely once on
each of the ticks 6, 12, 18, ... and on no other tick; and a further tick on which the
Internet check passes writes exactly 0, which is then the stored Internet counter. -/
theorem consecutive_internet_failures (s : link_store) (g : cm2_state)
    (con : schema_Connection_Manager_Uplink) (envs : List tick_env)
    (hused : g.link.is_used = true) (hconn : g.connected = false)
    (hs : s g.link.if_name = some con)
    (h0 : con.unreachable_internet_counter = 0)
    (hfail : ∀ e ∈ envs, (e.target_device_connectivity_check g.link.if_name
        (check_opts g)).2.internet_state = false)
    (hn : (envs.length : Int) ≤ INT_MAX) :
    (run_ticks s g envs).2.2.length = envs.length ∧
    (∃ con2, (run_ticks s g envs).1 g.link.if_name = some con2 ∧
      con2.unreachable_internet_counter = (envs.length : Int)) ∧
    total_dhcp_refreshes (run_ticks s g envs).2.2 = envs.length / 6 ∧
    (∀ k r, (run_ticks s g envs).2.2[k]? = some r →
      dhcp_refreshes r.2 = if 6 ∣ k + 1 then [BR_WAN_NAME] else []) ∧
    (∀ e : tick_env,
      (e.target_device_connectivity_check g.link.if_name
        (check_opts g)).2.internet_state = true →
      (∃ r, (run_ticks s g (envs ++ [e])).2.2[envs.length]? = some r ∧
        internet_counter_updates r.2 = [(g.link.if_name, 0)]) ∧
      (∃ con3, (run_ticks s g (envs ++ [e])).1 g.link.if_name = some con3 ∧
        con3.unreachable_internet_counter = 0)) := by
  have hlen : 0 + envs.length ≤ 2147483647 := by
    unfold INT_MAX at hn; omega
  obtain ⟨⟨con2, hcon2, hval⟩, ⟨hu, hname, hc⟩, hl, htot, hk⟩ :=
    internet_failure_run envs s g con 0 hused hconn hs (by simpa using h0) hfail hlen
  refine ⟨hl, ⟨con2, hcon2, by simpa using hval⟩, by simpa using htot, ?_, ?_⟩
  · intro k r hr
    have := hk k r hr
    simpa using this
  · intro e hpass
    have hopts := check_opts_congr (run_ticks s g envs).2.1 g (hc.trans hconn.symm)
    have hcon2b : (run_ticks s g envs).1 (run_ticks s g envs).2.1.link.if_name
        = some con2 := by rw [hname]; exact hcon2
    have hpa : (probe_answer (store_world (run_ticks s g envs).1 e)
        (run_ticks s g envs).2.1).2.internet_state = true := by
      unfold probe_answer
      rw [hname, hopts]
      exact hpass
    rw [run_ticks_append]
    constructor
    · refine ⟨cm2_connection_stability_check (store_world (run_ticks s g envs).1 e)
        (run_ticks s g envs).2.1, ?_, ?_⟩
      · rw [List.getElem?_append_right (by rw [hl]), hl]
        simp [run_ticks]
      · rw [internet_updates_at_probe _ _ con2 rfl hu hcon2b, hc, hpa, hname]
        simp
    · have hst := store_after_tick (run_ticks s g envs).1 (run_ticks s g envs).2.1 e con2
        hu hcon2b
      rw [hname, hopts, hc, hpass] at hst
      simp only [if_true] at hst
      exact ⟨_, hst, rfl⟩

/-- Witness of C16: seven consecutive failing ticks from a store of zero counters; the
stored Internet counter is 7 and the DHCP refresh was invoked once (7 / 6 = 1). -/
theorem consecutive_internet_failures_witness :
    (state_clear.link.is_used = true ∧ state_clear.connected = false ∧
      store_zero state_clear.link.if_name = some ⟨0, 0, 0⟩ ∧
      (∀ e ∈ List.replicate 7 env_fail,
        (e.target_device_connectivity_check state_clear.link.if_name
          (check_opts state_clear)).2.internet_state = false) ∧
      ((List.replicate 7 env_fail).length : Int) ≤ INT_MAX) ∧
    (∃ con2, (run_ticks store_zero state_clear (List.replicate 7 env_fail)).1
        state_clear.link.if_name = some con2 ∧
      con2.unreachable_internet_counter = ((List.replicate 7 env_fail).length : Int)) ∧
    total_dhcp_refreshes (run_ticks store_zero state_clear (List.replicate 7 env_fail)).2.2
      = (List.replicate 7 env_fail).length / 6 ∧
    (List.replicate 7 env_fail).length / 6 = 1 :=
  have h := consecutive_internet_failures store_zero state_clear ⟨0, 0, 0⟩
    (List.replicate 7 env_fail) rfl rfl rfl rfl (by decide) (by decide)
  ⟨⟨rfl, rfl, rfl, by decide, by decide⟩, h.2.1, h.2.2.1, by decide⟩

/-- C17, consecutive router failures. In a store in which every update succeeds and every
tick fetches what the tick before wrote (`run_ticks`), with an initial router counter of
0 and `is_limp_state` false after every tick, over `n` consecutive ticks that reach the
probe and report the router check as failed (`n` at most `INT_MAX`) the restart is not
invoked on the ticks 1 to 5 and is invoked, once, on tick 6 and on every later tick: in
total `n - 5` times, and not at all when `n` is at most 5. -/
theorem consecutive_router_failures (s : link_store) (g : cm2_state)
    (con : schema_Connection_Manager_Uplink) (envs : List tick_env)
    (hused : g.link.is_used = true) (hs : s g.link.if_name = some con)
    (h0 : con.unreachable_router_counter = 0)
    (hfail : ∀ e ∈ envs, (e.target_device_connectivity_check g.link.if_name
        (check_opts g)).2.router_state = false)
    (hlimp : ∀ r ∈ (run_ticks s g envs).2.2, r.1.link.is_limp_state = false)
    (hn : (envs.length : Int) ≤ INT_MAX) :
    (run_ticks s g envs).2.2.length = envs.length ∧
    (∀ k r, (run_ticks s g envs).2.2[k]? = some r →
      restart_count r.2 = if 6 ≤ k + 1 then 1 else 0) ∧
    total_restarts (run_ticks s g envs).2.2 = envs.length - 5 ∧
    (∃ con2, (run_ticks s g envs).1 g.link.if_name = some con2 ∧
      con2.unreachable_router_counter = (envs.length : Int)) := by
  have hlen : 0 + envs.length ≤ 2147483647 := by
    unfold INT_MAX at hn; omega
  obtain ⟨⟨con2, hcon2, hval⟩, hl, htot, hk⟩ :=
    router_failure_run envs s g con 0 hused hs (by simpa using h0) hfail hlen hlimp
  refine ⟨hl, ?_, by simpa using htot, ⟨con2, hcon2, by simpa using hval⟩⟩
  intro k r hr
  rw [hk k r hr]
  by_cases h : 6 ≤ k + 1
  · rw [if_pos (by omega), if_pos h]
  · rw [if_neg (by omega), if_neg h]

/-- Witness of C17: seven consecutive failing ticks on a bridge with the limp state
clear, from a store of zero counters: the restart is invoked on the ticks 6 and 7, so
twice. -/
theorem consecutive_router_failures_witness :
    (state_clear.link.is_used = true ∧
      store_zero state_clear.link.if_name = some ⟨0, 0, 0⟩ ∧
      (∀ e ∈ List.replicate 7 env_fail,
        (e.target_device_connectivity_check state_clear.link.if_name
          (check_opts state_clear)).2.router_state = false) ∧
      (∀ r ∈ (run_ticks store_zero state_clear (List.replicate 7 env_fail)).2.2,
        r.1.link.is_limp_state = false) ∧
      ((List.replicate 7 env_fail).length : Int) ≤ INT_MAX) ∧
    total_restarts (run_ticks store_zero state_clear (List.replicate 7 env_fail)).2.2
      = (List.replicate 7 env_fail).length - 5 ∧
    (List.replicate 7 env_fail).length - 5 = 2 :=
  have h := consecutive_router_failures store_zero state_clear ⟨0, 0, 0⟩
    (List.replicate 7 env_fail) rfl rfl rfl (by decide) (by decide) (by decide)
  ⟨⟨rfl, rfl, by decide, by decide, by decide⟩, h.2.2.1, by decide⟩

end CM2
